import Mathlib

/-!
Verification of the Ani-Downloader job orchestration core.

This file gives a shallow embedding, in Lean 4, of the components of the
Ani-Downloader repository that the specification's claims are about:

* `app/download_eta_calculator.py` — the `AdvancedETACalculator` sliding-window
  speed/ETA estimator (real arithmetic is modelled with `ℚ`; wall-clock time
  is passed explicitly as a parameter);
* `app/plugin_manager.py` — the `PluginManager` priority-sorted handler
  registry with fallback dispatch;
* `app/job_store.py` — the `JobStore` SQLite persistence layer (the backing
  table is modelled as a list of rows; the JSON codec is an explicit
  parameter with its round-trip contract stated as a hypothesis);
* `app/routes/download.py` — failure categorization, recovery-plan synthesis,
  job creation / hydration / clearing, the retry endpoint and the
  `run_download_job` orchestration loop.

The `AnimeDownloader` collaborator (`app/downloader.py`) and the `DownloadJob`
entity (`app/models.py`) are not part of the sources; they are modelled from
the specification (sections 3 and 6) and marked as such in doc comments.
Python exceptions are modelled with `Except`/`Option`; `None` is `Option.none`;
Python mutation is modelled by explicit state passing.
-/

namespace AniDL

/-! ## Text helpers

Python strings are modelled as Lean `String`s; where the code performs
`.lower()` and substring tests (`in`), we work on the underlying `List Char`.
-/

/-- `s.lower()` on the character list of a Python string. -/
def lowerData (s : String) : List Char := s.data.map Char.toLower

/-- Python `needle in haystack` substring containment (on `.data` lists). -/
def strIn (needle : String) (hay : List Char) : Bool :=
  decide (needle.data <:+: hay)

/-- `any(k in blob for k in keys)` from `_categorize_failure`. -/
def containsAny (blob : List Char) (keys : List String) : Bool :=
  keys.any (fun k => strIn k blob)

/-! ## ETA/Speed tracker (`app/download_eta_calculator.py`)

`AdvancedETACalculator` keeps a fixed-capacity deque of per-interval speeds.
Wall-clock readings (`time.time()`) are supplied explicitly as the `now`
arguments. Floats are modelled as rationals, so `math.isnan`/`math.isinf`
checks in `_format_time` are vacuous in the model.
-/

structure ETACalc where
  windowSize : Nat
  speedSamples : List ℚ
  startTime : Option ℚ
  lastUpdateTime : Option ℚ
  lastDownloadedUnits : ℚ
  totalUnits : ℚ

/-- `AdvancedETACalculator.__init__(window_size)`. -/
def ETACalc.init (windowSize : Nat) : ETACalc :=
  { windowSize := windowSize
    speedSamples := []
    startTime := none
    lastUpdateTime := none
    lastDownloadedUnits := 0
    totalUnits := 0 }

/-- `deque(maxlen=w).append x`: appending to a full window drops the oldest sample. -/
def dequeAppend (w : Nat) (samples : List ℚ) (x : ℚ) : List ℚ :=
  let s := samples ++ [x]
  if w < s.length then s.drop (s.length - w) else s

/-- `AdvancedETACalculator.start(total_units)` at wall-clock time `now`. -/
def ETACalc.start (c : ETACalc) (totalUnits now : ℚ) : ETACalc :=
  { c with
    startTime := some now
    lastUpdateTime := some now
    totalUnits := totalUnits
    lastDownloadedUnits := 0
    speedSamples := [] }

/-- The dictionary returned by `update` / `_result`. -/
structure ETAResult where
  downloadedUnits : ℚ
  totalUnits : ℚ
  speedUnitsPerS : ℚ
  progressPercent : ℚ
  etaSeconds : Option ℚ
  etaFormatted : String
  elapsedSeconds : Option ℚ
  elapsedFormatted : String
deriving DecidableEq

/-- Zero padding used by the `" {m:02d}:{s:02d} "` format. -/
def pad2 (n : Int) : String :=
  if n < 10 then "0" ++ toString n else toString n

/-- `AdvancedETACalculator._format_time` (no NaN/infinity in `ℚ`). -/
def formatTime (seconds : Option ℚ) : String :=
  match seconds with
  | none => "Calculating..."
  | some q =>
    if q ≤ 0 then "Calculating..."
    else if 3600 ≤ q then
      let h : Int := ⌊q / 3600⌋
      let m : Int := ⌊(q - 3600 * h) / 60⌋
      toString h ++ "h " ++ toString m ++ "m"
    else
      let m : Int := ⌊q / 60⌋
      let s : Int := ⌊q - 60 * m⌋
      pad2 m ++ ":" ++ pad2 s

/-- `AdvancedETACalculator._result`. -/
def ETACalc.result (c : ETACalc) (downloadedUnits speedUnitsPerS : ℚ)
    (etaSeconds elapsedSeconds : Option ℚ) : ETAResult :=
  let progress : ℚ := if 0 < c.totalUnits then downloadedUnits / c.totalUnits * 100 else 0
  { downloadedUnits := downloadedUnits
    totalUnits := c.totalUnits
    speedUnitsPerS := speedUnitsPerS
    progressPercent := progress
    etaSeconds := etaSeconds
    etaFormatted := formatTime etaSeconds
    elapsedSeconds := elapsedSeconds
    elapsedFormatted := formatTime elapsedSeconds }

/-- `AdvancedETACalculator.update(downloaded_units)` at wall-clock time `now`;
returns the updated calculator together with the result dictionary. -/
def ETACalc.update (c : ETACalc) (now downloadedUnits : ℚ) : ETACalc × ETAResult :=
  match c.startTime, c.lastUpdateTime with
  | some st, some lt =>
    let dt := now - lt
    let du := downloadedUnits - c.lastDownloadedUnits
    let samples :=
      if 0 < dt ∧ 0 ≤ du then
        let speed := du / dt
        if 0 < speed then dequeAppend c.windowSize c.speedSamples speed else c.speedSamples
      else c.speedSamples
    let c' := { c with
      speedSamples := samples
      lastUpdateTime := some now
      lastDownloadedUnits := downloadedUnits }
    let avgSpeed : ℚ := if samples.length = 0 then 0 else samples.sum / samples.length
    let remaining : ℚ := max 0 (c.totalUnits - downloadedUnits)
    let etaSeconds : Option ℚ := if 0 < avgSpeed then some (remaining / avgSpeed) else none
    let elapsed := now - st
    (c', c'.result downloadedUnits avgSpeed etaSeconds (some elapsed))
  | _, _ => (c, c.result downloadedUnits 0 none none)

/-- Run a sequence of `update` calls, collecting every returned result.
Each input is a `(now, downloaded_units)` pair. -/
def ETACalc.updates (c : ETACalc) : List (ℚ × ℚ) → ETACalc × List ETAResult
  | [] => (c, [])
  | (now, d) :: rest =>
    let (c', r) := c.update now d
    let (c'', rs) := c'.updates rest
    (c'', r :: rs)

/-! ## Configuration values

Job configurations and JSON-ish payload values are flat string-keyed maps.
`CVal` models the Python values that actually flow through the config
(`int`, `str`, `bool`, `None`); a Python `dict` is an association list with
unique keys, first-match lookup.
-/

inductive CVal where
  | int (n : Int)
  | str (s : String)
  | bool (b : Bool)
  | null
deriving DecidableEq, Repr

abbrev Config := List (String × CVal)

/-- Python truthiness of a `CVal`. -/
def cvalTruthy : CVal → Bool
  | .int n => n ≠ 0
  | .str s => s ≠ ""
  | .bool b => b
  | .null => false

/-- Python `str(v)`. -/
def pyStr : CVal → String
  | .int n => toString n
  | .str s => s
  | .bool b => if b then "True" else "False"
  | .null => "None"

/-- Python `v == 0` (true for `0` and `False`). -/
def pyEqZero : CVal → Bool
  | .int n => n = 0
  | .bool b => !b
  | _ => false

/-- `dict.get(k, default)`. -/
def cfgGetD (c : Config) (k : String) (d : CVal) : CVal :=
  (c.lookup k).getD d

/-- `d[k] = v` on an association list: replace the first binding or append. -/
def assocSet (c : Config) (k : String) (v : CVal) : Config :=
  match c with
  | [] => [(k, v)]
  | (k', v') :: rest => if k' = k then (k, v) :: rest else (k', v') :: assocSet rest k v

/-- `base.update(changes)` on Python dicts (later bindings of `changes` win). -/
def dictUpdate (base changes : Config) : Config :=
  changes.foldl (fun acc kv => assocSet acc kv.1 kv.2) base

/-- Python `int(v)`: identity on ints, `True`/`False` to `1`/`0`,
decimal-string parsing (optional surrounding spaces, optional sign), and a
`TypeError`/`ValueError` (i.e. `none`) otherwise. Numeric-literal
underscores are not modelled. -/
def pyInt : CVal → Option Int
  | .int n => some n
  | .bool b => some (if b then 1 else 0)
  | .null => none
  | .str s =>
    let chars := (s.data.dropWhile (· = ' ')).reverse.dropWhile (· = ' ') |>.reverse
    let (neg, digits) :=
      match chars with
      | '-' :: rest => (true, rest)
      | '+' :: rest => (false, rest)
      | rest => (false, rest)
    if digits ≠ [] ∧ digits.all Char.isDigit then
      let n : Nat := digits.foldl (fun acc c => acc * 10 + (c.toNat - '0'.toNat)) 0
      some (if neg then -(n : Int) else (n : Int))
    else none

/-! ## Plugin registry (`app/plugin_manager.py`)

A handler is modelled by its observable interface: `SITE_NAME`, `IS_FALLBACK`,
`get_priority()`, `can_handle(url)` and `download(url, output, **kwargs)`.
A raised Python exception is an `Except.error` carrying `str(e)`.
The download-result dictionary (`success`, `files`, `error`, `metadata`) is
the `DLResult` structure; metadata values reuse `CVal`.
-/

structure DLResult where
  success : Bool
  files : List String
  error : Option String
  metadata : Config
deriving DecidableEq, Repr

/-- The keyword options forwarded by `PluginManager.download` callers. -/
structure DLOpts where
  quality : Option CVal
  fps : Option CVal
  preferType : CVal
  preferServer : CVal
deriving DecidableEq, Repr

structure Plugin where
  name : String
  priority : Int
  isFallback : Bool
  canHandle : String → Except String Bool
  download : String → String → DLOpts → Except String DLResult

/-- `dict.setdefault(k, v)` on metadata. -/
def mdSetdefault (m : Config) (k : String) (v : CVal) : Config :=
  if (m.lookup k).isSome then m else m ++ [(k, v)]

/-- `self.plugins.sort(key=lambda p: p.get_priority(), reverse=True)`:
stable descending sort by priority (insertion of an earlier-registered
handler stops before any strictly higher priority and lands before equal
priorities, as Python's stable sort does). -/
def insertDesc (p : Plugin) : List Plugin → List Plugin
  | [] => [p]
  | q :: l => if p.priority < q.priority then q :: insertDesc p l else p :: q :: l

def sortDesc : List Plugin → List Plugin
  | [] => []
  | p :: l => insertDesc p (sortDesc l)

/-- The discovery loop of `_load_plugins`: non-fallback instances are kept in
registration order, the last instance with `IS_FALLBACK` becomes the fallback
(defaulting to the pre-constructed `GenericPlugin`). -/
def splitFallback (regs : List Plugin) (fb : Plugin) : List Plugin × Plugin :=
  regs.foldl
    (fun acc p => if p.isFallback then (acc.1, p) else (acc.1 ++ [p], acc.2))
    ([], fb)

/-- `PluginManager._load_plugins` on an explicit registration list. -/
def loadPlugins (regs : List Plugin) (fb : Plugin) : List Plugin × Plugin :=
  let (ps, f) := splitFallback regs fb
  (sortDesc ps, f)

/-- `PluginManager.get_plugin_for_url`: first matching handler in priority
order; a raising `can_handle` is a non-match; no match yields the fallback. -/
def getPluginForUrl (plugins : List Plugin) (fallback : Plugin) (url : String) : Plugin :=
  match plugins with
  | [] => fallback
  | p :: rest =>
    match p.canHandle url with
    | .ok true => p
    | _ => getPluginForUrl rest fallback url

/-- `result.setdefault("metadata", {}); result["metadata"].setdefault("plugin", name)`. -/
def withPluginMeta (r : DLResult) (name : String) : DLResult :=
  { r with metadata := mdSetdefault r.metadata "plugin" (.str name) }

/-- The structured failure result returned when downloads raise. -/
def failResult (e : String) : DLResult :=
  { success := false, files := [], error := some e, metadata := [("plugin", .str "fallback")] }

/-- `PluginManager.download`. -/
def pmDownload (plugins : List Plugin) (fallback : Plugin)
    (url out : String) (opts : DLOpts) : DLResult :=
  let plugin := getPluginForUrl plugins fallback url
  match plugin.download url out opts with
  | .ok r => withPluginMeta r plugin.name
  | .error e =>
    if plugin.isFallback then failResult e
    else
      match fallback.download url out opts with
      | .ok r =>
        let r' := withPluginMeta r fallback.name
        { r' with metadata := assocSet r'.metadata "fallback_used" (.bool true) }
      | .error fe => failResult fe

/-! ## Job store (`app/job_store.py`)

The SQLite `jobs` table is a list of rows keyed by `job_id` (the primary key
keeps ids unique). The persisted representation of `config`/`state` is an
abstract cell type `β` together with a serialization `Codec` standing for
`json.dumps`/`json.loads`; its round-trip law is stated as a hypothesis where
needed. Payload values are an abstract type `V`.
-/

structure StoreRow (β : Type) where
  jobId : Nat
  animeUrl : String
  configCell : β
  stateCell : β
deriving DecidableEq, Repr

structure Codec (β V : Type) where
  dumps : V → β
  loads : β → Option V

/-- A successfully deserialized row of `load_jobs`. -/
structure LoadedJob (V : Type) where
  jobId : Nat
  animeUrl : String
  config : V
  state : V
deriving DecidableEq, Repr

/-- `JobStore.upsert_job` (`INSERT ... ON CONFLICT(job_id) DO UPDATE`). -/
def upsertJob {β V : Type} (c : Codec β V) (s : List (StoreRow β))
    (id : Nat) (url : String) (cfg st : V) : List (StoreRow β) :=
  if s.any (fun r => r.jobId = id) then
    s.map (fun r => if r.jobId = id then ⟨id, url, c.dumps cfg, c.dumps st⟩ else r)
  else
    s ++ [⟨id, url, c.dumps cfg, c.dumps st⟩]

/-- `JobStore.delete_job`. -/
def deleteJob {β : Type} (s : List (StoreRow β)) (id : Nat) : List (StoreRow β) :=
  s.filter (fun r => r.jobId ≠ id)

/-- The `try: ... except: continue` body of `load_jobs`: decode one row,
`none` when either JSON cell fails to parse. -/
def decodeRow {β V : Type} (c : Codec β V) (r : StoreRow β) : Option (LoadedJob V) :=
  match c.loads r.configCell, c.loads r.stateCell with
  | some cfg, some st => some ⟨r.jobId, r.animeUrl, cfg, st⟩
  | _, _ => none

/-- `ORDER BY job_id ASC` as a total-order sort relation on rows. -/
def rowLE {β : Type} (a b : StoreRow β) : Prop := a.jobId ≤ b.jobId

instance {β : Type} : DecidableRel (α := StoreRow β) rowLE :=
  fun a b => Nat.decLe a.jobId b.jobId

instance {β : Type} : IsTotal (StoreRow β) rowLE := ⟨fun a b => Nat.le_total a.jobId b.jobId⟩

instance {β : Type} : IsTrans (StoreRow β) rowLE := ⟨fun _ _ _ h h' => Nat.le_trans h h'⟩

/-- `JobStore.load_jobs`: select all rows ordered by id ascending, decode
each, silently skipping rows that fail to deserialize. -/
def loadJobs {β V : Type} (c : Codec β V) (s : List (StoreRow β)) : List (LoadedJob V) :=
  (List.insertionSort rowLE s).filterMap (decodeRow c)

/-- `JobStore.get_max_job_id` (`COALESCE(MAX(job_id), 0)`). -/
def maxJobId {β : Type} (s : List (StoreRow β)) : Nat :=
  s.foldr (fun r acc => max r.jobId acc) 0

/-! ## Job entity

Modelled from the spec: `DownloadJob` (`app/models.py`) is not among the
sources; its fields follow section 3 of the specification and the reads and
writes performed by `app/routes/download.py`. Timestamps are reduced to an
`endTimeSet` flag (wall-clock values are irrelevant to the claims); the log
keeps `(level, message)` in order.
-/

structure LogEntry where
  level : String
  message : String
deriving DecidableEq, Repr

/-- A recovery action: a label plus configuration overrides. -/
structure RecoveryAction where
  label : String
  changes : Config
deriving DecidableEq, Repr

structure Job where
  jobId : Nat
  animeUrl : String
  config : Config
  status : String
  animeTitle : Option String
  season : CVal
  totalEpisodes : Nat
  completedEpisodes : Nat
  progress : Int
  currentEpisode : Option String
  currentFile : Option String
  downloadedFiles : List String
  mergedFile : Option String
  logs : List LogEntry
  error : Option String
  failureReason : Option String
  failureCategory : Option String
  recoveryPlan : List RecoveryAction
  parentJobId : Option Nat
  retryCount : Int
  endTimeSet : Bool
deriving DecidableEq, Repr

/-- `job.add_log(level, msg)`: append-only log. -/
def addLog (j : Job) (level msg : String) : Job :=
  { j with logs := j.logs ++ [⟨level, msg⟩] }

/-- Modelled from the spec: `DownloadJob.__init__(job_id, anime_url, config)`
with the initial field values of section 3 (state machine starts `pending`,
counters at zero, empty collections). -/
def initJob (id : Nat) (url : String) (cfg : Config) : Job :=
  { jobId := id
    animeUrl := url
    config := cfg
    status := "pending"
    animeTitle := none
    season := .int 0
    totalEpisodes := 0
    completedEpisodes := 0
    progress := 0
    currentEpisode := none
    currentFile := none
    downloadedFiles := []
    mergedFile := none
    logs := []
    error := none
    failureReason := none
    failureCategory := none
    recoveryPlan := []
    parentJobId := none
    retryCount := 0
    endTimeSet := false }

/-! ## Failure categorizer and recovery planner (`app/routes/download.py`) -/

/-- `"\n".join((l.get("message") or "") for l in (job.logs or [])[-20:]).lower()`. -/
def recentLogsBlob (logs : List LogEntry) : List Char :=
  (List.intercalate ['\n']
    ((logs.drop (logs.length - 20)).map (fun l => l.message.data))).map Char.toLower

/-- `blob = f"{err}\n{recent_logs}"` of `_categorize_failure`. -/
def failureBlob (job : Job) : List Char :=
  lowerData ((job.error).getD "") ++ '\n' :: recentLogsBlob job.logs

/-- `_categorize_failure`: first-match keyword rules over the lowercased blob. -/
def categorizeFailure (job : Job) : String :=
  let blob := failureBlob job
  if containsAny blob ["timeout", "timed out", "connection", "network", "403", "429"] then
    "network_or_rate_limit"
  else if containsAny blob ["merge", "concat", "ffmpeg"] then
    "merge_failure"
  else if containsAny blob ["no servers", "could not choose server", "resolve video data", "episode token"] then
    "source_resolution_failure"
  else if containsAny blob ["plugin", "extractor", "unsupported", "youtube"] then
    "plugin_failure"
  else
    "unknown"

/-- The "Switch server preference" action with its toggled server value. -/
def switchServerAction (cfg : Config) : RecoveryAction :=
  { label := "Switch server preference"
    changes := [("prefer_server",
      .str (if (pyStr (cfgGetD cfg "prefer_server" (.str "Server 1"))).toLower = "server 1"
            then "Server 2" else "Server 1"))] }

/-- `_build_recovery_plan`. The result is `none` exactly when the Python
function raises: in the `network_or_rate_limit` branch it evaluates
`int(config.get("timeout", 300))` and `int(config.get("max_retries", 7))`
without a guard, so a non-integer-convertible configured value raises
`ValueError`/`TypeError` out of the planner. -/
def buildRecoveryPlan (job : Job) : Option (List RecoveryAction) :=
  let category := categorizeFailure job
  let cfg := job.config
  let p1 : List RecoveryAction :=
    if category = "merge_failure" ∧ cvalTruthy (cfgGetD cfg "merge_episodes" .null) then
      [{ label := "Retry without merging"
         changes := [("merge_episodes", .bool false), ("keep_individual_files", .bool true)] }]
    else []
  let p2 : List RecoveryAction :=
    if category = "source_resolution_failure" ∨ category = "network_or_rate_limit" ∨
        category = "unknown" then
      [switchServerAction cfg,
       { label := "Lower quality and FPS"
         changes := [("quality", .str "720"), ("fps", .str "30")] }]
    else []
  let p3 : List RecoveryAction :=
    if category = "plugin_failure" ∨ category = "unknown" then
      [{ label := "Toggle plugin engine"
         changes := [("use_plugin", .bool (! cvalTruthy (cfgGetD cfg "use_plugin" (.bool true))))] }]
    else []
  let p4? : Option (List RecoveryAction) :=
    if category = "network_or_rate_limit" then
      match pyInt (cfgGetD cfg "timeout" (.int 300)), pyInt (cfgGetD cfg "max_retries" (.int 7)) with
      | some t, some r =>
        some [{ label := "Increase timeout and retries"
                changes := [("timeout", .int (max 450 t)), ("max_retries", .int (max 9 r))] }]
      | _, _ => none
    else some []
  match p4? with
  | none => none
  | some p4 =>
    let plan := p1 ++ p2 ++ p3 ++ p4
    some (if plan = [] then [{ label := "Retry with same settings", changes := [] }] else plan)

/-! ## Live job registry, creation and retry (`app/routes/download.py`)

The module-level `download_jobs` map and `job_counter` are a `LiveState`
threaded explicitly. Best-effort persistence (`_persist_job`) does not affect
these claims and is omitted from `LiveState`.
-/

structure LiveState where
  jobCounter : Nat
  jobs : List (Nat × Job)

/-- `download_jobs[k] = v` on the association-list job map. -/
def jobsSet (m : List (Nat × Job)) (k : Nat) (v : Job) : List (Nat × Job) :=
  match m with
  | [] => [(k, v)]
  | (k', v') :: rest => if k' = k then (k, v) :: rest else (k', v') :: jobsSet rest k v

/-- `_create_job`: increments the counter under the lock, builds the job,
stores it in the live map. -/
def createJob (s : LiveState) (url : String) (cfg : Config)
    (parent : Option Nat) (retryCount : Int) (plan : List RecoveryAction) :
    LiveState × Job :=
  let id := s.jobCounter + 1
  let job := { initJob id url cfg with
    parentJobId := parent, retryCount := retryCount, recoveryPlan := plan }
  ({ jobCounter := id, jobs := jobsSet s.jobs id job }, job)

/-- `retry_download_job(job_id)` with JSON body value `raw` for
`action_index`. Error responses are `Except.error`; the live state is
returned alongside (unchanged on every error path). `Except.error
"Internal Server Error"` models `_build_recovery_plan` raising out of the
request handler. -/
def retryDownloadJob (s : LiveState) (jobId : Nat) (raw : CVal) :
    LiveState × Except String Job :=
  match s.jobs.lookup jobId with
  | none => (s, .error "Job not found")
  | some oldJob =>
    if oldJob.status ≠ "failed" then (s, .error "Only failed jobs can be retried")
    else
      match pyInt raw with
      | none => (s, .error "action_index must be an integer")
      | some actionIndex =>
        match (if oldJob.recoveryPlan.isEmpty then buildRecoveryPlan oldJob
               else some oldJob.recoveryPlan) with
        | none => (s, .error "Internal Server Error")
        | some plan0 =>
          let plan := if plan0.isEmpty then
              [{ label := "Retry with same settings", changes := [] }]
            else plan0
          if actionIndex < 0 ∨ (plan.length : Int) ≤ actionIndex then
            (s, .error "Invalid action index")
          else
            let chosen := plan.getD actionIndex.toNat { label := "", changes := [] }
            let newConfig := dictUpdate oldJob.config chosen.changes
            let (s', newJob0) := createJob s oldJob.animeUrl newConfig
              (some oldJob.jobId) (oldJob.retryCount + 1) plan
            let newJob := addLog newJob0 "INFO"
              ("Retry created from job #" ++ toString oldJob.jobId ++ " using: " ++ chosen.label)
            ({ s' with jobs := jobsSet s'.jobs newJob.jobId newJob }, .ok newJob)

/-! ## Job-id lifecycle model (`_create_job`, `clear_download_job`,
`_hydrate_jobs_from_store`)

For the identity claims only ids matter. `IdState` keeps the counter, the
key set of the live map and the key set of the persisted store. A `clear`
event stands for a `DELETE /clear/<id>` request that passes its
terminal-status guard: it removes the job from the live map and deletes its
store row. A `restart` event is a process restart: the module reloads with
`job_counter = 0`, then `_hydrate_jobs_from_store` rebuilds the live map from
the store and sets `job_counter = max(job_counter, store.get_max_job_id())`.
The trace's second component records every id ever assigned, in order.
-/

structure IdState where
  jobCounter : Nat
  liveIds : List Nat
  storeIds : List Nat
deriving DecidableEq, Repr

inductive JobEvent where
  | create
  | clear (id : Nat)
  | restart
deriving DecidableEq, Repr

/-- Key insertion (store rows and map keys are unique). -/
def insertId (l : List Nat) (id : Nat) : List Nat :=
  if id ∈ l then l else l ++ [id]

/-- `get_max_job_id` over a set of ids (`0` when empty). -/
def maxIdOf (l : List Nat) : Nat := l.foldr max 0

def applyEvent : IdState × List Nat → JobEvent → IdState × List Nat
  | (s, assigned), .create =>
    let id := s.jobCounter + 1
    (⟨id, insertId s.liveIds id, insertId s.storeIds id⟩, assigned ++ [id])
  | (s, assigned), .clear id =>
    if id ∈ s.liveIds then
      (⟨s.jobCounter, s.liveIds.erase id, s.storeIds.erase id⟩, assigned)
    else (s, assigned)
  | (s, assigned), .restart =>
    (⟨maxIdOf s.storeIds, s.storeIds, s.storeIds⟩, assigned)

def execEvents (evs : List JobEvent) : IdState × List Nat :=
  evs.foldl applyEvent (⟨0, [], []⟩, [])

def assignedIds (evs : List JobEvent) : List Nat := (execEvents evs).2

/-! ## The orchestrator `run_download_job` (`app/routes/download.py`)

Modelled from the spec: the `AnimeDownloader` collaborator
(`app/downloader.py` is not among the sources) is the site-downloader
interface of specification section 6, given as an explicit record of pure
functions; an operation that would return a falsy value returns `none`/`[]`.
Episode-range keys (`safe_episode_key`) land in `ℚ`. Stream data is opaque.

`run_download_job` itself is translated statement by statement. A raised
exception is `Except.error` carrying `(str(e), job-state-at-raise)`; the
`except` block (`applyFailure`) then mirrors the failure path. Log texts keep
the words of the source messages (emoji prefixes dropped); `int((completed /
total) * 100)` is integer `(completed * 100) / total` (same value up to the
float-rounding caveat noted in spec section 9).
-/

structure Episode where
  id : String
  title : String
  token : String
deriving DecidableEq, Repr

structure Server where
  serverId : String
  serverName : String
  stype : String
deriving DecidableEq, Repr

/-- Modelled from the spec: the site-downloader collaborator interface
(specification section 6); `app/downloader.py` is not among the sources. -/
structure Downloader where
  getAnimeDetails : String → Option (String × String)
  detectSeasonFromTitle : String → Int
  getEpisodeList : String → List Episode
  safeEpisodeKey : CVal → ℚ
  getVideoServers : String → List Server
  chooseServer : List Server → CVal → CVal → Option Server
  getVideoData : String → Option String
  generateEpisodeFilename : String → CVal → String → String
  downloadEpisode : String → String → String → Option CVal → Option CVal → Bool
  mergeVideos : List String → String → CVal → String → String → Option String

/-- `os.path.join` for the paths built here. -/
def joinPath (d f : String) : String := d ++ "/" ++ f

/-- `os.path.basename`. -/
def basename (s : String) : String :=
  String.mk ((s.data.reverse.takeWhile (fun c => c ≠ '/')).reverse)

/-- `x or default` on an optional string (`None` and `""` are falsy). -/
def pyOrStr (o : Option String) (d : String) : String :=
  match o with
  | some s => if s = "" then d else s
  | none => d

/-- Constants shared by every iteration of the episode loop. -/
structure LoopCtx where
  dl : Downloader
  cfg : Config
  downloadDir : String
  animeTitle : String
  season : CVal
  preferType : CVal
  preferServer : CVal

/-- The output path synthesized for one episode. -/
def epFilepath (ctx : LoopCtx) (ep : Episode) : String :=
  joinPath ctx.downloadDir (ctx.dl.generateEpisodeFilename ctx.animeTitle ctx.season ep.id)

/-- Whether the per-episode pipeline (servers → server choice → video data →
download) succeeds for `ep`; any of the four per-episode failures yields
`false`. -/
def epSucceeds (ctx : LoopCtx) (ep : Episode) : Bool :=
  match ctx.dl.getVideoServers ep.token with
  | [] => false
  | servers =>
    match ctx.dl.chooseServer servers ctx.preferType ctx.preferServer with
    | none => false
    | some server =>
      match ctx.dl.getVideoData server.serverId with
      | none => false
      | some videoData =>
        ctx.dl.downloadEpisode videoData (epFilepath ctx ep) ep.id
          (ctx.cfg.lookup "quality") (ctx.cfg.lookup "fps")

/-- One iteration of the `for idx, ep in enumerate(selected, 1)` loop.
Per-episode failures append an ERROR log and `continue`; successes update the
counters, progress, file list and paths. -/
def episodeStep (ctx : LoopCtx) (acc : Job × List String) (iep : Nat × Episode) :
    Job × List String :=
  let (job, paths) := acc
  let ep := iep.2
  let idx := iep.1 + 1
  let job := addLog { job with currentEpisode := some ep.id } "INFO"
    ("Processing episode " ++ ep.id ++ " (" ++ toString idx ++ "/" ++
      toString job.totalEpisodes ++ ")")
  match ctx.dl.getVideoServers ep.token with
  | [] => (addLog job "ERROR" ("No servers available for episode " ++ ep.id), paths)
  | servers =>
    match ctx.dl.chooseServer servers ctx.preferType ctx.preferServer with
    | none => (addLog job "ERROR" ("Could not choose server for episode " ++ ep.id), paths)
    | some server =>
      let job := addLog job "INFO" ("Using server: " ++ server.serverName)
      match ctx.dl.getVideoData server.serverId with
      | none => (addLog job "ERROR" ("Could not resolve video data for episode " ++ ep.id), paths)
      | some videoData =>
        let filepath := epFilepath ctx ep
        let job := { job with currentFile := some (basename filepath) }
        if ctx.dl.downloadEpisode videoData filepath ep.id
            (ctx.cfg.lookup "quality") (ctx.cfg.lookup "fps") then
          let job := { job with completedEpisodes := job.completedEpisodes + 1 }
          let job := { job with
            progress := ((job.completedEpisodes * 100) / job.totalEpisodes : Nat)
            downloadedFiles := job.downloadedFiles ++ [basename filepath]
            currentFile := none }
          (addLog job "INFO" ("Successfully downloaded episode " ++ ep.id), paths ++ [filepath])
        else
          (addLog { job with currentFile := none } "ERROR"
            ("Failed to download episode " ++ ep.id), paths)

/-- Episode-selection modes (`Single Episode` / `Episode Range` / all). -/
def selectEpisodes (dl : Downloader) (cfg : Config) (episodes : List Episode) :
    List Episode :=
  let mode := cfgGetD cfg "download_mode" (.str "All Episodes")
  if mode = .str "Single Episode" then
    let singleEp := cfgGetD cfg "single_episode" (.str "1")
    episodes.filter (fun ep => CVal.str ep.id = singleEp)
  else if mode = .str "Episode Range" then
    let startEp := cfgGetD cfg "start_episode" (.str "1")
    let endEp := cfgGetD cfg "end_episode" (.str "1")
    episodes.filter (fun ep =>
      decide (dl.safeEpisodeKey startEp ≤ dl.safeEpisodeKey (.str ep.id)) &&
      decide (dl.safeEpisodeKey (.str ep.id) ≤ dl.safeEpisodeKey endEp))
  else episodes

/-- The merge block: only entered when merging is configured and more than one
file downloaded; merge failure is logged and the job proceeds. When merging
succeeds and `keep_individual_files` is off, each per-episode file is removed
and its name dropped from `downloaded_files` (a missing name would raise
`ValueError` inside the per-file `try`, logged as WARN). -/
def mergeStage (ctx : LoopCtx) (job : Job) (downloadedPaths : List String)
    (firstEpId lastEpId : String) : Job :=
  if cvalTruthy (cfgGetD job.config "merge_episodes" (.bool false)) ∧
      1 < downloadedPaths.length then
    let job := addLog { job with status := "merging" } "INFO"
      ("Merging " ++ toString downloadedPaths.length ++ " episodes...")
    match ctx.dl.mergeVideos downloadedPaths ctx.animeTitle ctx.season firstEpId lastEpId with
    | some merged =>
      let job := addLog { job with mergedFile := some (basename merged) } "INFO"
        ("Successfully merged into " ++ basename merged)
      if ! cvalTruthy (cfgGetD job.config "keep_individual_files" (.bool false)) then
        let job := addLog job "INFO" "Removing individual episode files..."
        downloadedPaths.foldl
          (fun j f =>
            if basename f ∈ j.downloadedFiles then
              { j with downloadedFiles := j.downloadedFiles.erase (basename f) }
            else addLog j "WARN" ("Could not remove " ++ basename f))
          job
      else job
    | none => addLog job "ERROR" "Merge failed"
  else job

/-- The completion epilogue of `run_download_job`. -/
def completeStage (job : Job) : Job :=
  addLog
    { job with
      status := "completed"
      progress := 100
      currentFile := none
      endTimeSet := true } "INFO"
    ("Download job completed! Downloaded " ++ toString job.completedEpisodes ++ "/" ++
      toString job.totalEpisodes ++ " episodes")

/-- The `except Exception` block of `run_download_job`. Field assignments run
in source order; if `_build_recovery_plan` raises (`none`), the assignments
after it — recovery plan, current-file reset, end time, the two ERROR logs —
never execute and the worker thread dies. -/
def applyFailure (job : Job) (e : String) : Job :=
  let j1 := { job with status := "failed", error := some e, failureReason := some e }
  let j2 := { j1 with failureCategory := some (categorizeFailure j1) }
  match buildRecoveryPlan j2 with
  | none => j2
  | some plan =>
    let j3 := { j2 with recoveryPlan := plan, currentFile := none, endTimeSet := true }
    addLog (addLog j3 "ERROR" ("Job failed: " ++ e)) "ERROR" "traceback"

/-- The plugin-mediated branch of `run_download_job` (taken when plugins are
enabled and the URL does not resolve to the native "AniKai.to" handler). -/
def pluginStage (plugins : List Plugin) (fallback : Plugin) (folder : String)
    (job0 : Job) : Except (String × Job) Job :=
  let plugin := getPluginForUrl plugins fallback job0.animeUrl
  let job := addLog { job0 with status := "downloading" } "INFO"
    ("Using plugin backend: " ++ plugin.name)
  let opts : DLOpts :=
    { quality := job.config.lookup "quality"
      fps := job.config.lookup "fps"
      preferType := cfgGetD job.config "prefer_type" (.str "Soft Sub")
      preferServer := cfgGetD job.config "prefer_server" (.str "Server 1") }
  let result := pmDownload plugins fallback job.animeUrl (joinPath folder "plugin_downloads") opts
  if ! result.success then
    .error (pyOrStr result.error "Plugin download failed", job)
  else
    let files := result.files
    let total := if files.length = 0 then 1 else files.length
    let title :=
      match result.metadata.lookup "title" with
      | some v => if cvalTruthy v then pyStr v else "Plugin Download"
      | none => "Plugin Download"
    let job := { job with
      totalEpisodes := total
      completedEpisodes := total
      progress := 100
      downloadedFiles := files.map basename
      animeTitle := some title
      status := "completed"
      endTimeSet := true }
    .ok (addLog job "INFO" ("Plugin download completed (" ++ toString files.length ++ " file(s))"))

/-- The generic (non-plugin) path of `run_download_job`: fetch info, fetch
episodes, select, run the episode loop, merge, complete. -/
def genericStage (dl : Downloader) (folder : String) (job0 : Job) :
    Except (String × Job) Job :=
  let job := addLog { job0 with status := "fetching_info" } "INFO"
    ("Fetching anime details from " ++ job0.animeUrl)
  match dl.getAnimeDetails job.animeUrl with
  | none => .error ("Could not extract anime ID from URL", job)
  | some (animeId, animeTitle) =>
    let job := addLog { job with animeTitle := some animeTitle } "INFO"
      ("Found anime: " ++ animeTitle)
    let season0 := cfgGetD job.config "season_number" (.int 0)
    let season := if pyEqZero season0 then CVal.int (dl.detectSeasonFromTitle animeTitle)
      else season0
    let job := addLog { job with season := season } "INFO" ("Season: " ++ pyStr season)
    let job := { job with status := "fetching_episodes" }
    match dl.getEpisodeList animeId with
    | [] => .error ("No episodes found", job)
    | e :: es =>
      let episodes := e :: es
      let job := addLog job "INFO" ("Found " ++ toString episodes.length ++ " episodes")
      match selectEpisodes dl job.config episodes with
      | [] => .error ("No episodes match your selection", job)
      | first :: rest =>
        let selected := first :: rest
        let job := addLog { job with totalEpisodes := selected.length } "INFO"
          ("Will download " ++ toString selected.length ++ " episode(s)")
        let job := { job with status := "downloading" }
        let ctx : LoopCtx :=
          { dl := dl
            cfg := job.config
            downloadDir := joinPath folder animeTitle
            animeTitle := animeTitle
            season := season
            preferType := cfgGetD job.config "prefer_type" (.str "Soft Sub")
            preferServer := cfgGetD job.config "prefer_server" (.str "Server 1") }
        let out := (selected.enum).foldl (episodeStep ctx) (job, [])
        let job' := mergeStage ctx out.1 out.2 first.id ((selected.getLast?).getD first).id
        .ok (completeStage job')

/-- The `try` body of `run_download_job`. -/
def runCore (plugins : List Plugin) (fallback : Plugin) (dl : Downloader)
    (folder : String) (job : Job) : Except (String × Job) Job :=
  if cvalTruthy (cfgGetD job.config "use_plugin" (.bool true)) ∧
      (getPluginForUrl plugins fallback job.animeUrl).name ≠ "AniKai.to" then
    pluginStage plugins fallback folder job
  else
    genericStage dl folder job

/-- `run_download_job`: the `try` body plus the `except Exception` handler. -/
def runDownloadJob (plugins : List Plugin) (fallback : Plugin) (dl : Downloader)
    (folder : String) (job : Job) : Job :=
  match runCore plugins fallback dl folder job with
  | .ok j => j
  | .error (e, j) => applyFailure j e

/-! ## Concrete instances used by witnesses and counterexamples -/

/-- A synthetic priority-100 handler whose pattern does not match `c5Url`. -/
def h100 : Plugin :=
  { name := "Prio100Site", priority := 100, isFallback := false
    canHandle := fun url => .ok (url == "https://prio100.example/show")
    download := fun _ _ _ => .error "unused" }

/-- A synthetic priority-80 handler whose pattern matches `c5Url`. -/
def h80 : Plugin :=
  { name := "Prio80Site", priority := 80, isFallback := false
    canHandle := fun url => .ok (url == "https://prio80.example/show")
    download := fun _ _ _ => .error "unused" }

/-- A synthetic priority-50 handler whose pattern does not match `c5Url`. -/
def h50 : Plugin :=
  { name := "Prio50Site", priority := 50, isFallback := false
    canHandle := fun url => .ok (url == "https://prio50.example/show")
    download := fun _ _ _ => .error "unused" }

/-- A handler whose match predicate raises. -/
def hRaise : Plugin :=
  { name := "Broken", priority := 120, isFallback := false
    canHandle := fun _ => .error "boom"
    download := fun _ _ _ => .error "unused" }

/-- The match-everything fallback (`GenericPlugin`). -/
def genericFallback : Plugin :=
  { name := "Generic (yt-dlp + AniKai fallback)", priority := 0, isFallback := true
    canHandle := fun _ => .ok true
    download := fun _ _ _ => .error "unused" }

def c5Url : String := "https://prio80.example/show"

/-- All six registration orders of the three prioritized handlers. -/
def regOrders : List (List Plugin) :=
  [[h100, h80, h50], [h100, h50, h80], [h80, h100, h50],
   [h80, h50, h100], [h50, h100, h80], [h50, h80, h100]]

/-- Options record used by witness scenarios. -/
def opts0 : DLOpts :=
  { quality := none, fps := none
    preferType := .str "Soft Sub", preferServer := .str "Server 1" }

def rOk : DLResult := { success := true, files := ["/out/a.mp4"], error := none, metadata := [] }

def rFb : DLResult := { success := true, files := ["/out/f.mp4"], error := none, metadata := [] }

/-- A matching handler whose download succeeds. -/
def pOk : Plugin :=
  { name := "SiteA", priority := 10, isFallback := false
    canHandle := fun _ => .ok true
    download := fun _ _ _ => .ok rOk }

/-- A matching handler whose download raises. -/
def pBoom : Plugin :=
  { name := "SiteB", priority := 10, isFallback := false
    canHandle := fun _ => .ok true
    download := fun _ _ _ => .error "boom" }

/-- A fallback whose download succeeds. -/
def fbOk : Plugin :=
  { name := "GenericOk", priority := 0, isFallback := true
    canHandle := fun _ => .ok true
    download := fun _ _ _ => .ok rFb }

/-- A fallback whose download raises. -/
def fbBoom : Plugin :=
  { name := "GenericBoom", priority := 0, isFallback := true
    canHandle := fun _ => .ok true
    download := fun _ _ _ => .error "fbboom" }

/-- Identity-ish codec over `Option` cells: `dumps` wraps in `some`, a `none`
cell is a corrupted row. Used to instantiate the job-store theorem. -/
def optCodec : Codec (Option (List Nat)) (List Nat) :=
  { dumps := some, loads := fun b => b }

/-- A store with a corrupted row (id 6, undecodable config cell) and a good
row (id 5), deliberately out of id order. -/
def storeC6 : List (StoreRow (Option (List Nat))) :=
  [⟨6, "https://bad.example", none, some [0]⟩,
   ⟨5, "https://good.example", some [1, 2], some [3]⟩]

/-- A failed job whose error text contains "timeout" but whose configured
timeout is the non-numeric string "max". -/
def c7Job : Job :=
  { initJob 1 "https://site.example/show" [("timeout", .str "max")] with
    status := "failed", error := some "Read timeout while fetching" }

/-- A failed job with "timeout" in its error and integer timeout/retry
configuration. -/
def c7GoodJob : Job :=
  { initJob 2 "https://site.example/show"
      [("timeout", .int 600), ("max_retries", .int 2)] with
    status := "failed", error := some "Connection timeout while downloading" }

/-- A handler that matches everything and reports a download failure whose
error text mentions a timeout. -/
def c9Plugin : Plugin :=
  { name := "SiteC", priority := 10, isFallback := false
    canHandle := fun _ => .ok true
    download := fun _ _ _ => .ok
      { success := false, files := []
        error := some "Connection timeout (read timed out)", metadata := [] } }

/-- A fresh job whose user-supplied configuration carries the non-numeric
timeout value "max". -/
def c9Job : Job :=
  initJob 3 "https://sitec.example/show"
    [("timeout", .str "max"), ("use_plugin", .bool true)]

/-- A downloader whose operations are never reached in the plugin-path
scenarios. -/
def dlUnused : Downloader :=
  { getAnimeDetails := fun _ => none
    detectSeasonFromTitle := fun _ => 1
    getEpisodeList := fun _ => []
    safeEpisodeKey := fun _ => 0
    getVideoServers := fun _ => []
    chooseServer := fun _ _ _ => none
    getVideoData := fun _ => none
    generateEpisodeFilename := fun _ _ _ => ""
    downloadEpisode := fun _ _ _ _ _ => false
    mergeVideos := fun _ _ _ _ _ => none }

/-- A failed job carrying a one-action recovery plan, for retry scenarios. -/
def c8OldJob : Job :=
  { initJob 4 "https://site.example/a" [("quality", .str "best"), ("timeout", .int 300)] with
    status := "failed"
    error := some "boom"
    recoveryPlan := [⟨"Lower quality and FPS", [("quality", .str "720"), ("fps", .str "30")]⟩] }

/-- A live state holding `c8OldJob` under its id with the counter at 4. -/
def c8State : LiveState := { jobCounter := 4, jobs := [(4, c8OldJob)] }

/-- The job `_create_job` builds during a successful retry (before the
creation log line): fresh id, merged config, parent back-reference,
incremented retry counter, inherited plan. -/
def retryNewJob0 (s : LiveState) (oldJob : Job) (i : Int) : Job :=
  { initJob (s.jobCounter + 1) oldJob.animeUrl
      (dictUpdate oldJob.config ((oldJob.recoveryPlan.getD i.toNat ⟨"", []⟩).changes)) with
    parentJobId := some oldJob.jobId
    retryCount := oldJob.retryCount + 1
    recoveryPlan := oldJob.recoveryPlan }

/-- The retry job after its creation log line. -/
def retryNewJob (s : LiveState) (oldJob : Job) (i : Int) : Job :=
  addLog (retryNewJob0 s oldJob i) "INFO"
    ("Retry created from job #" ++ toString oldJob.jobId ++ " using: "
      ++ (oldJob.recoveryPlan.getD i.toNat ⟨"", []⟩).label)

/-- The season value computed by the generic path (configured season, or the
detected one when the configured value is falsy-zero). -/
def jobSeason (dl : Downloader) (job : Job) (title : String) : CVal :=
  if pyEqZero (cfgGetD job.config "season_number" (.int 0))
  then CVal.int (dl.detectSeasonFromTitle title)
  else cfgGetD job.config "season_number" (.int 0)

/-- The loop context the generic path builds for a job resolved to `title`. -/
def jobCtx (dl : Downloader) (folder : String) (job : Job) (title : String) : LoopCtx :=
  { dl := dl
    cfg := job.config
    downloadDir := joinPath folder title
    animeTitle := title
    season := jobSeason dl job title
    preferType := cfgGetD job.config "prefer_type" (.str "Soft Sub")
    preferServer := cfgGetD job.config "prefer_server" (.str "Server 1") }

/-- The job state at the top of the episode loop: info and episodes fetched,
selection sized, status `downloading`. -/
def startedJob (dl : Downloader) (job : Job) (title : String) (epCount selCount : Nat) : Job :=
  { job with
    status := "downloading"
    animeTitle := some title
    season := jobSeason dl job title
    totalEpisodes := selCount
    logs := job.logs ++
      [⟨"INFO", "Fetching anime details from " ++ job.animeUrl⟩,
       ⟨"INFO", "Found anime: " ++ title⟩,
       ⟨"INFO", "Season: " ++ pyStr (jobSeason dl job title)⟩,
       ⟨"INFO", "Found " ++ toString epCount ++ " episodes"⟩,
       ⟨"INFO", "Will download " ++ toString selCount ++ " episode(s)"⟩] }

/-- A ten-episode series for the range-selection scenario. -/
def c3Episodes : List Episode :=
  [⟨"1", "Ep 1", "t1"⟩, ⟨"2", "Ep 2", "t2"⟩, ⟨"3", "Ep 3", "t3"⟩, ⟨"4", "Ep 4", "t4"⟩,
   ⟨"5", "Ep 5", "t5"⟩, ⟨"6", "Ep 6", "t6"⟩, ⟨"7", "Ep 7", "t7"⟩, ⟨"8", "Ep 8", "t8"⟩,
   ⟨"9", "Ep 9", "t9"⟩, ⟨"10", "Ep 10", "t10"⟩]

/-- A downloader for the concrete scenario: every episode resolves servers
and stream data, but downloading episode "3" returns `false` (a per-episode
failure). -/
def dlC3 : Downloader :=
  { getAnimeDetails := fun _ => some ("aid1", "Show")
    detectSeasonFromTitle := fun _ => 1
    getEpisodeList := fun aid => if aid = "aid1" then c3Episodes else []
    safeEpisodeKey := fun v => (((pyInt v).getD 0 : Int) : ℚ)
    getVideoServers := fun token =>
      if token = "" then [] else [⟨"sv-" ++ token, "Server 1", "softsub"⟩]
    chooseServer := fun servers _ _ => servers.head?
    getVideoData := fun sid => some ("vd-" ++ sid)
    generateEpisodeFilename := fun title season epId =>
      title ++ " S" ++ pyStr season ++ "E" ++ epId ++ ".mp4"
    downloadEpisode := fun _ _ epId _ _ => epId != "3"
    mergeVideos := fun _ _ _ _ _ => none }

/-- A job requesting episodes 2 through 4 of the series on the generic
(non-plugin) path, merging disabled (the default). -/
def c3Job : Job :=
  initJob 7 "https://native.example/show"
    [("use_plugin", .bool false), ("download_mode", .str "Episode Range"),
     ("start_episode", .str "2"), ("end_episode", .str "4")]

/-- `update` never changes `total_units`. -/
theorem ETACalc.update_totalUnits (c : ETACalc) (now d : ℚ) :
    ((c.update now d).1).totalUnits = c.totalUnits := by
  unfold ETACalc.update
  cases c.startTime <;> cases c.lastUpdateTime <;> rfl

/-- The progress reported by `update` is `downloaded / total * 100` (unclamped). -/
theorem ETACalc.update_progress (c : ETACalc) (now d : ℚ) :
    ((c.update now d).2).progressPercent =
      if 0 < c.totalUnits then d / c.totalUnits * 100 else 0 := by
  unfold ETACalc.update ETACalc.result
  cases c.startTime <;> cases c.lastUpdateTime <;> rfl

/-- The progress values reported over a run depend only on the downloaded
counts and the (invariant) total. -/
theorem ETACalc.updates_progress (c : ETACalc) (inputs : List (ℚ × ℚ)) :
    ((c.updates inputs).2).map ETAResult.progressPercent =
      inputs.map (fun p => if 0 < c.totalUnits then p.2 / c.totalUnits * 100 else 0) := by
  induction inputs generalizing c with
  | nil => rfl
  | cons p rest ih =>
    obtain ⟨now, d⟩ := p
    have h2 : (c.updates ((now, d) :: rest)).2 =
        (c.update now d).2 :: (((c.update now d).1).updates rest).2 := rfl
    rw [h2, List.map_cons, ETACalc.update_progress, List.map_cons]
    have h := ih ((c.update now d).1)
    rw [ETACalc.update_totalUnits] at h
    rw [h]

/-- `start` sets `total_units` to its argument. -/
theorem ETACalc.start_totalUnits (c : ETACalc) (total t0 : ℚ) :
    ((c.start total t0)).totalUnits = total := rfl

/-- C2: counterexample. After `start(total_units = 1)`, the single-call
sequence `update(2)` has monotonically non-decreasing arguments, yet the
returned `progress_percent` is `200`, outside `[0, 100]`: `_result` computes
`downloaded / total * 100` without clamping. -/
theorem c2_progress_counterexample :
    ((((ETACalc.init 10).start 1 0).update 1 2).2.progressPercent = 200) ∧
    ¬ ((((ETACalc.init 10).start 1 0).update 1 2).2.progressPercent ≤ 100) := by
  have h := ETACalc.update_progress ((ETACalc.init 10).start 1 0) 1 2
  have ht : (((ETACalc.init 10).start 1 0)).totalUnits = 1 := rfl
  rw [ht] at h
  norm_num at h
  exact ⟨h, by rw [h]; norm_num⟩

/-- C2 (amended): after `start(total_units)` with `total_units > 0`, for any
sequence of `update(downloaded_units)` calls whose arguments are monotonically
non-decreasing **and lie in `[0, total_units]`**, the reported
`progress_percent` values are monotonically non-decreasing and lie in
`[0, 100]`. -/
theorem c2_progress_monotone_bounded (w : Nat) (total t0 : ℚ) (inputs : List (ℚ × ℚ))
    (htot : 0 < total)
    (hbound : ∀ p ∈ inputs, 0 ≤ p.2 ∧ p.2 ≤ total)
    (hmono : inputs.Chain' (fun a b => a.2 ≤ b.2)) :
    ((((ETACalc.init w).start total t0).updates inputs).2).Chain'
      (fun a b => a.progressPercent ≤ b.progressPercent) ∧
    ∀ r ∈ (((ETACalc.init w).start total t0).updates inputs).2,
      0 ≤ r.progressPercent ∧ r.progressPercent ≤ 100 := by
  set c := (ETACalc.init w).start total t0 with hc
  have hct : c.totalUnits = total := rfl
  have hmap : (((c.updates inputs).2).map ETAResult.progressPercent) =
      inputs.map (fun p => p.2 / total * 100) := by
    rw [ETACalc.updates_progress, hct]
    exact List.map_congr_left (fun p _ => by rw [if_pos htot])
  constructor
  · have h1 : ((c.updates inputs).2.map ETAResult.progressPercent).Chain' (· ≤ ·) := by
      rw [hmap, List.chain'_map]
      refine hmono.imp (fun a b hab => ?_)
      exact mul_le_mul_of_nonneg_right ((div_le_div_iff_of_pos_right htot).mpr hab) (by norm_num)
    rw [List.chain'_map] at h1
    exact h1
  · intro r hr
    have : r.progressPercent ∈ ((c.updates inputs).2).map ETAResult.progressPercent :=
      List.mem_map_of_mem _ hr
    rw [hmap] at this
    obtain ⟨p, hp, hpe⟩ := List.mem_map.mp this
    obtain ⟨hp0, hpt⟩ := hbound p hp
    constructor
    · rw [← hpe]
      positivity
    · rw [← hpe]
      calc p.2 / total * 100 ≤ 1 * 100 :=
            mul_le_mul_of_nonneg_right ((div_le_one htot).mpr hpt) (by norm_num)
        _ = 100 := by norm_num

/-- Every element is bounded by the running maximum (`get_max_job_id`). -/
theorem le_maxIdOf {l : List Nat} {i : Nat} (h : i ∈ l) : i ≤ maxIdOf l := by
  induction l with
  | nil => cases h
  | cons a l ih =>
    rcases List.mem_cons.mp h with rfl | h'
    · exact le_max_left _ _
    · exact le_trans (ih h') (le_max_right _ _)

/-- Membership after key insertion. -/
theorem mem_insertId {l : List Nat} {id i : Nat} (h : i ∈ insertId l id) :
    i ∈ l ∨ i = id := by
  unfold insertId at h
  split at h
  · exact .inl h
  · rcases List.mem_append.mp h with h' | h'
    · exact .inl h'
    · exact .inr (List.mem_singleton.mp h')

/-- Invariant carried along an event trace: live and persisted ids are
bounded by the counter; assigned ids are strictly increasing and bounded by
the counter. -/
def traceInv (p : IdState × List Nat) : Prop :=
  (∀ i ∈ p.1.liveIds, i ≤ p.1.jobCounter) ∧
  (∀ i ∈ p.1.storeIds, i ≤ p.1.jobCounter) ∧
  p.2.Pairwise (· < ·) ∧
  (∀ i ∈ p.2, i ≤ p.1.jobCounter)

/-- Every non-restart event preserves `traceInv`. -/
theorem traceInv_applyEvent (p : IdState × List Nat) (e : JobEvent)
    (hne : e ≠ .restart) (h : traceInv p) : traceInv (applyEvent p e) := by
  obtain ⟨s, assigned⟩ := p
  obtain ⟨hlive, hstore, hpw, hbnd⟩ := h
  cases e with
  | restart => exact absurd rfl hne
  | create =>
    simp only [applyEvent]
    refine ⟨?_, ?_, ?_, ?_⟩
    · intro i hi
      rcases mem_insertId hi with h' | rfl
      · exact le_trans (hlive i h') (Nat.le_succ _)
      · exact le_refl _
    · intro i hi
      rcases mem_insertId hi with h' | rfl
      · exact le_trans (hstore i h') (Nat.le_succ _)
      · exact le_refl _
    · refine List.pairwise_append.mpr ⟨hpw, List.pairwise_singleton _ _, ?_⟩
      intro a ha b hb
      rw [List.mem_singleton.mp hb]
      exact Nat.lt_succ_of_le (hbnd a ha)
    · intro i hi
      rcases List.mem_append.mp hi with h' | h'
      · exact le_trans (hbnd i h') (Nat.le_succ _)
      · rw [List.mem_singleton.mp h']
  | clear id =>
    simp only [applyEvent]
    split
    · exact ⟨fun i hi => hlive i (List.mem_of_mem_erase hi),
        fun i hi => hstore i (List.mem_of_mem_erase hi), hpw, hbnd⟩
    · exact ⟨hlive, hstore, hpw, hbnd⟩


/-- `traceInv` holds after any restart-free trace. -/
theorem traceInv_foldl (evs : List JobEvent) (p : IdState × List Nat)
    (hres : JobEvent.restart ∉ evs) (h : traceInv p) :
    traceInv (evs.foldl applyEvent p) := by
  induction evs generalizing p with
  | nil => exact h
  | cons e rest ih =>
    simp only [List.foldl_cons]
    refine ih _ (fun hr => hres (List.mem_cons_of_mem _ hr)) ?_
    refine traceInv_applyEvent p e (fun he => hres ?_) h
    rw [he]
    exact List.mem_cons_self _ _

/-- All events — including restarts — keep live and persisted ids bounded by
the counter. -/
theorem idBounded_applyEvent (p : IdState × List Nat) (e : JobEvent)
    (h : (∀ i ∈ p.1.liveIds, i ≤ p.1.jobCounter) ∧
         (∀ i ∈ p.1.storeIds, i ≤ p.1.jobCounter)) :
    (∀ i ∈ (applyEvent p e).1.liveIds, i ≤ (applyEvent p e).1.jobCounter) ∧
    (∀ i ∈ (applyEvent p e).1.storeIds, i ≤ (applyEvent p e).1.jobCounter) := by
  obtain ⟨s, assigned⟩ := p
  obtain ⟨hlive, hstore⟩ := h
  cases e with
  | create =>
    constructor
    · intro i hi
      rcases mem_insertId hi with h' | rfl
      · exact le_trans (hlive i h') (Nat.le_succ _)
      · exact le_refl _
    · intro i hi
      rcases mem_insertId hi with h' | rfl
      · exact le_trans (hstore i h') (Nat.le_succ _)
      · exact le_refl _
  | clear id =>
    simp only [applyEvent]
    split
    · exact ⟨fun i hi => hlive i (List.mem_of_mem_erase hi),
        fun i hi => hstore i (List.mem_of_mem_erase hi)⟩
    · exact ⟨hlive, hstore⟩
  | restart =>
    exact ⟨fun i hi => le_maxIdOf hi, fun i hi => le_maxIdOf hi⟩

/-- C1 counterexample: the event sequence "create job 1, clear it, restart
the process, create a job" assigns id 1 twice — after a clear followed by a
store rehydration the counter falls back and an id is reused, so assigned
ids are not strictly increasing across the whole system lifetime. -/
theorem c1_counterexample :
    assignedIds [.create, .clear 1, .restart, .create] = [1, 1] ∧
    ¬ (assignedIds [.create, .clear 1, .restart, .create]).Pairwise (· < ·) := by
  decide

/-- C1 (amended): job ids are unique and strictly increasing within a single
process lifetime — for every sequence of creations and clears with no
rehydration, each newly created id is strictly greater than every id
assigned before, never reused even after deletion. After an arbitrary
sequence (restarts included), every live or persisted id is at most the
counter, so a new job's id `counter + 1` still exceeds every id currently in
the live map or the store; ids of jobs cleared before a restart may be
reused. -/
theorem c1_job_ids (evs : List JobEvent) :
    (JobEvent.restart ∉ evs → (assignedIds evs).Pairwise (· < ·)) ∧
    ((∀ i ∈ (execEvents evs).1.liveIds, i ≤ (execEvents evs).1.jobCounter) ∧
     (∀ i ∈ (execEvents evs).1.storeIds, i ≤ (execEvents evs).1.jobCounter)) := by
  constructor
  · intro hres
    exact (traceInv_foldl evs (⟨0, [], []⟩, []) hres
      ⟨by simp, by simp, List.Pairwise.nil, by simp⟩).2.2.1
  · have : ∀ (evs' : List JobEvent) (p : IdState × List Nat),
        ((∀ i ∈ p.1.liveIds, i ≤ p.1.jobCounter) ∧
         (∀ i ∈ p.1.storeIds, i ≤ p.1.jobCounter)) →
        ((∀ i ∈ (evs'.foldl applyEvent p).1.liveIds,
            i ≤ (evs'.foldl applyEvent p).1.jobCounter) ∧
         (∀ i ∈ (evs'.foldl applyEvent p).1.storeIds,
            i ≤ (evs'.foldl applyEvent p).1.jobCounter)) := by
      intro evs'
      induction evs' with
      | nil => exact fun p h => h
      | cons e rest ih =>
        intro p h
        simpa only [List.foldl_cons] using ih _ (idBounded_applyEvent p e h)
    exact this evs (⟨0, [], []⟩, []) ⟨by simp, by simp⟩

/-- C1 witness: a restart-free trace with a clear in the middle; the three
created jobs receive the strictly increasing ids 1, 2, 3. -/
theorem c1_job_ids_witness :
    JobEvent.restart ∉ [JobEvent.create, .create, .clear 1, .create] ∧
    (assignedIds [JobEvent.create, .create, .clear 1, .create]).Pairwise (· < ·) :=
  ⟨by decide, (c1_job_ids [JobEvent.create, .create, .clear 1, .create]).1 (by decide)⟩

/-- C2 witness: a concrete monotone in-range run (`total = 2`,
downloads `0, 1, 2`) satisfying the amended theorem's hypotheses. -/
theorem c2_progress_witness :
    (0 : ℚ) < 2 ∧
    (((((ETACalc.init 10).start 2 0).updates [(1, 0), (2, 1), (3, 2)]).2).Chain'
      (fun a b => a.progressPercent ≤ b.progressPercent) ∧
    ∀ r ∈ (((ETACalc.init 10).start 2 0).updates [(1, 0), (2, 1), (3, 2)]).2,
      0 ≤ r.progressPercent ∧ r.progressPercent ≤ 100) :=
  ⟨by norm_num,
   c2_progress_monotone_bounded 10 2 0 [(1, 0), (2, 1), (3, 2)] (by norm_num)
     (by intro p hp; fin_cases hp <;> norm_num)
     (by refine List.chain'_cons.mpr ⟨by norm_num, ?_⟩
         refine List.chain'_cons.mpr ⟨by norm_num, ?_⟩
         exact List.chain'_singleton _)⟩

/-- C4: `PluginManager.download` dispatches to the selected handler's
download; if that raises and the selected handler is not the fallback it
retries exactly once against the fallback; if the fallback raises too — or
the selected handler already was the fallback — it returns the structured
failure result (`success = false`, empty file list, error message) instead
of propagating; and the failure result indeed has that shape. -/
theorem c4_dispatch_download (plugins : List Plugin) (fallback : Plugin)
    (url out : String) (opts : DLOpts) :
    (∀ r, (getPluginForUrl plugins fallback url).download url out opts = .ok r →
      pmDownload plugins fallback url out opts =
        withPluginMeta r (getPluginForUrl plugins fallback url).name) ∧
    (∀ e, (getPluginForUrl plugins fallback url).download url out opts = .error e →
      (getPluginForUrl plugins fallback url).isFallback = true →
      pmDownload plugins fallback url out opts = failResult e) ∧
    (∀ e r, (getPluginForUrl plugins fallback url).download url out opts = .error e →
      (getPluginForUrl plugins fallback url).isFallback = false →
      fallback.download url out opts = .ok r →
      pmDownload plugins fallback url out opts =
        { withPluginMeta r fallback.name with
          metadata := assocSet (withPluginMeta r fallback.name).metadata
            "fallback_used" (.bool true) }) ∧
    (∀ e fe, (getPluginForUrl plugins fallback url).download url out opts = .error e →
      (getPluginForUrl plugins fallback url).isFallback = false →
      fallback.download url out opts = .error fe →
      pmDownload plugins fallback url out opts = failResult fe) ∧
    (∀ e, (failResult e).success = false ∧ (failResult e).files = [] ∧
      (failResult e).error = some e) := by
  refine ⟨?_, ?_, ?_, ?_, ?_⟩
  · intro r hr
    simp only [pmDownload, hr]
  · intro e he hf
    simp only [pmDownload, he, hf, if_true]
  · intro e r he hf hfb
    simp only [pmDownload, he, hf, hfb, Bool.false_eq_true, if_false]
  · intro e fe he hf hfb
    simp only [pmDownload, he, hf, hfb, Bool.false_eq_true, if_false]
  · intro e
    exact ⟨rfl, rfl, rfl⟩

/-- C4 witness: one concrete scenario for each dispatch branch — success on
the selected handler, a raising fallback selected directly, selected raising
with a succeeding fallback, and both raising. -/
theorem c4_dispatch_download_witness :
    (pmDownload [pOk] fbBoom "u" "o" opts0 = withPluginMeta rOk pOk.name) ∧
    (pmDownload [] fbBoom "u" "o" opts0 = failResult "fbboom") ∧
    (pmDownload [pBoom] fbOk "u" "o" opts0 =
      { withPluginMeta rFb fbOk.name with
        metadata := assocSet (withPluginMeta rFb fbOk.name).metadata
          "fallback_used" (.bool true) }) ∧
    (pmDownload [pBoom] fbBoom "u" "o" opts0 = failResult "fbboom") :=
  ⟨(c4_dispatch_download [pOk] fbBoom "u" "o" opts0).1 rOk rfl,
   (c4_dispatch_download [] fbBoom "u" "o" opts0).2.1 "fbboom" rfl rfl,
   (c4_dispatch_download [pBoom] fbOk "u" "o" opts0).2.2.1 "boom" rFb rfl rfl rfl,
   (c4_dispatch_download [pBoom] fbBoom "u" "o" opts0).2.2.2.1 "boom" "fbboom" rfl rfl rfl⟩

/-- C5: handler selection returns the first handler (in the
priority-desc-sorted list) whose match predicate returns true; a raising or
false predicate is a non-match; when nothing matches the fallback is
returned; and for handlers of priorities 100/80/50 plus the fallback, a URL
matched only by the priority-80 pattern selects that handler under every one
of the six registration orders. -/
theorem c5_priority_selection :
    (∀ (p : Plugin) (ps : List Plugin) (fb : Plugin) (url : String),
      p.canHandle url = .ok true → getPluginForUrl (p :: ps) fb url = p) ∧
    (∀ (p : Plugin) (ps : List Plugin) (fb : Plugin) (url : String),
      ((∃ e, p.canHandle url = .error e) ∨ p.canHandle url = .ok false) →
      getPluginForUrl (p :: ps) fb url = getPluginForUrl ps fb url) ∧
    (∀ (ps : List Plugin) (fb : Plugin) (url : String),
      (∀ p ∈ ps, p.canHandle url ≠ .ok true) → getPluginForUrl ps fb url = fb) ∧
    (∀ regs ∈ regOrders,
      (getPluginForUrl (loadPlugins regs genericFallback).1
        (loadPlugins regs genericFallback).2 c5Url).name = "Prio80Site") := by
  refine ⟨?_, ?_, ?_, ?_⟩
  · intro p ps fb url h
    simp only [getPluginForUrl, h]
  · intro p ps fb url h
    rcases h with ⟨e, he⟩ | hf
    · simp only [getPluginForUrl, he]
    · simp only [getPluginForUrl, hf]
  · intro ps fb url h
    induction ps with
    | nil => rfl
    | cons p rest ih =>
      have hp := h p (List.mem_cons_self _ _)
      have hrest := ih (fun q hq => h q (List.mem_cons_of_mem _ hq))
      cases hc : p.canHandle url with
      | error e => simp only [getPluginForUrl, hc, hrest]
      | ok b =>
        cases b with
        | false => simp only [getPluginForUrl, hc, hrest]
        | true => exact absurd hc hp
  · intro regs hregs
    fin_cases hregs <;> rfl

/-- C5 witness: concrete instances for all four parts — a matching head, a
raising head skipped, a non-matching list falling back, and one concrete
registration order resolving to the priority-80 handler. -/
theorem c5_priority_selection_witness :
    (getPluginForUrl [h80] genericFallback c5Url = h80) ∧
    (getPluginForUrl (hRaise :: [h80]) genericFallback c5Url =
      getPluginForUrl [h80] genericFallback c5Url) ∧
    (getPluginForUrl [h100] genericFallback c5Url = genericFallback) ∧
    ((getPluginForUrl (loadPlugins [h50, h80, h100] genericFallback).1
      (loadPlugins [h50, h80, h100] genericFallback).2 c5Url).name = "Prio80Site") :=
  ⟨(c5_priority_selection).1 h80 [] genericFallback c5Url rfl,
   (c5_priority_selection).2.1 hRaise [h80] genericFallback c5Url (.inl ⟨"boom", rfl⟩),
   (c5_priority_selection).2.2.1 [h100] genericFallback c5Url
     (by intro p hp
         rw [List.mem_singleton.mp hp]
         intro hcontra
         have : (c5Url == "https://prio100.example/show") = true := by
           injection hcontra
         simp [c5Url] at this),
   (c5_priority_selection).2.2.2 [h50, h80, h100]
     (by simp [regOrders])⟩

/-- A decoded row keeps its row's job id. -/
theorem decodeRow_jobId {β V : Type} (c : Codec β V) (r : StoreRow β) (j : LoadedJob V)
    (h : decodeRow c r = some j) : j.jobId = r.jobId := by
  unfold decodeRow at h
  split at h
  · injection h with h'
    rw [← h']
  · cases h

/-- No decoded row survives an id filter when the id is absent. -/
theorem filter_decoded_eq_nil {β V : Type} (c : Codec β V) (id : Nat)
    (rows : List (StoreRow β)) (hid : id ∉ rows.map StoreRow.jobId) :
    (rows.filterMap (decodeRow c)).filter (fun j => j.jobId == id) = [] := by
  induction rows with
  | nil => rfl
  | cons r rest ih =>
    have hr : r.jobId ≠ id := by
      intro h
      exact hid (by rw [List.map_cons, ← h]; exact List.mem_cons_self _ _)
    have hrest := ih (fun h => hid (by rw [List.map_cons]; exact List.mem_cons_of_mem _ h))
    cases hd : decodeRow c r with
    | none => rw [List.filterMap_cons_none hd, hrest]
    | some j =>
      rw [List.filterMap_cons_some hd, List.filter_cons_of_neg, hrest]
      have hj := decodeRow_jobId c r j hd
      simp [hj, hr]

/-- In a row list with unique ids that contains a row `tr` carrying `id` and
decoding to `L`, filtering the decoded rows by `id` yields exactly `[L]`. -/
theorem filter_decoded_unique {β V : Type} (c : Codec β V) (id : Nat) (L : LoadedJob V)
    (rows : List (StoreRow β)) (tr : StoreRow β)
    (hnd : (rows.map StoreRow.jobId).Nodup) (htr : tr ∈ rows) (htrid : tr.jobId = id)
    (hdec : decodeRow c tr = some L) :
    (rows.filterMap (decodeRow c)).filter (fun j => j.jobId == id) = [L] := by
  induction rows with
  | nil => cases htr
  | cons r rest ih =>
    rw [List.map_cons, List.nodup_cons] at hnd
    by_cases hr : r.jobId = id
    · have hrest_no : id ∉ rest.map StoreRow.jobId := hr ▸ hnd.1
      have htr_eq : tr = r := by
        rcases List.mem_cons.mp htr with h | h
        · exact h
        · exact absurd (htrid ▸ List.mem_map_of_mem StoreRow.jobId h) hrest_no
      subst htr_eq
      rw [List.filterMap_cons_some hdec, List.filter_cons_of_pos,
        filter_decoded_eq_nil c id rest hrest_no]
      simp [decodeRow_jobId c tr L hdec, htrid]
    · have htr_rest : tr ∈ rest := by
        rcases List.mem_cons.mp htr with h | h
        · exact absurd (h ▸ htrid) hr
        · exact h
      have step := ih hnd.2 htr_rest
      cases hd : decodeRow c r with
      | none => rw [List.filterMap_cons_none hd, step]
      | some j =>
        rw [List.filterMap_cons_some hd, List.filter_cons_of_neg, step]
        have hj := decodeRow_jobId c r j hd
        simp [hj, hr]

/-- `upsert_job` keeps store ids unique (the primary-key invariant). -/
theorem upsertJob_ids_nodup {β V : Type} (c : Codec β V) (s : List (StoreRow β))
    (id : Nat) (url : String) (cfg st : V) (hnd : (s.map StoreRow.jobId).Nodup) :
    ((upsertJob c s id url cfg st).map StoreRow.jobId).Nodup := by
  unfold upsertJob
  split
  · rw [List.map_map]
    have heq : s.map (fun r => (if r.jobId = id
          then (⟨id, url, c.dumps cfg, c.dumps st⟩ : StoreRow β) else r).jobId) =
        s.map StoreRow.jobId := by
      refine List.map_congr_left (fun r _ => ?_)
      by_cases h : r.jobId = id
      · rw [if_pos h, h]
      · rw [if_neg h]
    rw [show ((StoreRow.jobId (β := β)) ∘ fun r => if r.jobId = id
          then (⟨id, url, c.dumps cfg, c.dumps st⟩ : StoreRow β) else r) =
        (fun r => (if r.jobId = id
          then (⟨id, url, c.dumps cfg, c.dumps st⟩ : StoreRow β) else r).jobId) from rfl]
    rw [heq]
    exact hnd
  · rename_i hany
    have hid : id ∉ s.map StoreRow.jobId := by
      intro hmem
      rcases List.mem_map.mp hmem with ⟨r, hr, hrid⟩
      exact hany (List.any_eq_true.mpr ⟨r, hr, by simp [hrid]⟩)
    rw [List.map_append]
    refine List.Nodup.append hnd (List.nodup_singleton _) ?_
    intro a ha hb
    rw [List.mem_singleton.mp hb] at ha
    exact hid ha

/-- The upserted row is in the store. -/
theorem upsertJob_mem {β V : Type} (c : Codec β V) (s : List (StoreRow β))
    (id : Nat) (url : String) (cfg st : V) :
    (⟨id, url, c.dumps cfg, c.dumps st⟩ : StoreRow β) ∈ upsertJob c s id url cfg st := by
  unfold upsertJob
  split
  · rename_i hany
    rw [List.any_eq_true] at hany
    obtain ⟨r, hr, hrid⟩ := hany
    refine List.mem_map.mpr ⟨r, hr, ?_⟩
    rw [if_pos (of_decide_eq_true hrid)]
  · exact List.mem_append_right _ (List.mem_singleton_self _)

/-- C6: `upsert_job` followed by `load_jobs` yields exactly one decoded row
for the upserted id, with the original config and state recovered through the
serialization round-trip; `load_jobs` returns rows ordered by id ascending;
and a row that fails to deserialize is skipped without preventing any
decodable row from loading. -/
theorem c6_job_store (β V : Type) (c : Codec β V)
    (hrt : ∀ v, c.loads (c.dumps v) = some v)
    (s : List (StoreRow β)) (hnd : (s.map StoreRow.jobId).Nodup)
    (id : Nat) (url : String) (cfg st : V) :
    ((loadJobs c (upsertJob c s id url cfg st)).filter (fun j => j.jobId == id) =
      [⟨id, url, cfg, st⟩]) ∧
    List.Pairwise (fun a b => a.jobId ≤ b.jobId) (loadJobs c s) ∧
    (∀ r ∈ s, ∀ j, decodeRow c r = some j → j ∈ loadJobs c s) := by
  refine ⟨?_, ?_, ?_⟩
  · set s' := upsertJob c s id url cfg st with hs'
    set tr : StoreRow β := ⟨id, url, c.dumps cfg, c.dumps st⟩ with htr
    have hnd' : (s'.map StoreRow.jobId).Nodup := upsertJob_ids_nodup c s id url cfg st hnd
    have hndsort : ((List.insertionSort rowLE s').map StoreRow.jobId).Nodup :=
      (((List.perm_insertionSort rowLE s').map StoreRow.jobId).nodup_iff).mpr hnd'
    have hmem : tr ∈ List.insertionSort rowLE s' :=
      (List.mem_insertionSort rowLE).mpr (upsertJob_mem c s id url cfg st)
    have hdec : decodeRow c tr = some ⟨id, url, cfg, st⟩ := by
      unfold decodeRow
      rw [htr]
      simp only [hrt]
    exact filter_decoded_unique c id ⟨id, url, cfg, st⟩ _ tr hndsort hmem rfl hdec
  · have hs : List.Sorted rowLE (List.insertionSort rowLE s) :=
      List.sorted_insertionSort rowLE s
    unfold loadJobs
    refine List.Pairwise.filterMap (decodeRow c) ?_ hs
    intro a b hab x hx y hy
    rw [decodeRow_jobId c a x hx, decodeRow_jobId c b y hy]
    exact hab
  · intro r hr j hj
    unfold loadJobs
    exact List.mem_filterMap.mpr ⟨r, (List.mem_insertionSort rowLE).mpr hr, hj⟩

/-- C6 witness: over the `Option`-cell codec, upserting id 5 into a store
holding a corrupted row 6 round-trips exactly one decoded row for id 5, the
output is id-ordered, and the decodable rows of the corrupt-containing store
all load. -/
theorem c6_job_store_witness :
    (∀ v : List Nat, optCodec.loads (optCodec.dumps v) = some v) ∧
    ((loadJobs optCodec (upsertJob optCodec storeC6 5 "https://good.example" [9] [8])).filter
      (fun j => j.jobId == 5) = [⟨5, "https://good.example", [9], [8]⟩]) ∧
    List.Pairwise (fun a b => a.jobId ≤ b.jobId) (loadJobs optCodec storeC6) ∧
    (∀ r ∈ storeC6, ∀ j, decodeRow optCodec r = some j → j ∈ loadJobs optCodec storeC6) := by
  have h := c6_job_store (Option (List Nat)) (List Nat) optCodec (fun _ => rfl) storeC6
    (by decide) 5 "https://good.example" [9] [8]
  exact ⟨fun _ => rfl, h.1, h.2.1, h.2.2⟩

/-- An error text containing "timeout" always lands in the first rule of
`_categorize_failure`. -/
theorem categorize_timeout (job : Job) (e : String) (he : job.error = some e)
    (hsub : "timeout".data <:+: e.data) :
    categorizeFailure job = "network_or_rate_limit" := by
  have hlow : "timeout".data <:+: lowerData e := by
    have hmap := hsub.map Char.toLower
    have heq : "timeout".data.map Char.toLower = "timeout".data := by decide
    rw [heq] at hmap
    exact hmap
  have hblob : "timeout".data <:+: failureBlob job := by
    unfold failureBlob
    rw [he]
    simp only [Option.getD_some]
    exact hlow.trans (List.prefix_append _ _).isInfix
  have hc : containsAny (failureBlob job)
      ["timeout", "timed out", "connection", "network", "403", "429"] = true := by
    unfold containsAny strIn
    simp only [List.any_cons]
    rw [decide_eq_true hblob]
    simp
  unfold categorizeFailure
  simp only [hc, if_true]

/-- C7 counterexample: `c7Job` is failed with "timeout" in its error text,
yet no recovery plan is synthesized at all — `_build_recovery_plan` raises
`ValueError` on `int("max")` — so the claim's statements about the plan's
first two actions and its timeout/retry overrides hold for no plan. -/
theorem c7_counterexample :
    c7Job.status = "failed" ∧
    "timeout".data <:+: (c7Job.error.getD "").data ∧
    buildRecoveryPlan c7Job = none := by
  decide

/-- C7 (amended): for every failed job whose error text contains "timeout"
and whose configured timeout and max-retries values convert to integers `t`
and `r` (defaults 300 and 7 when absent), the synthesized plan is exactly
"Switch server preference", "Lower quality and FPS", "Increase timeout and
retries", and the increase action's overrides `max 450 t` / `max 9 r` are
never lower than the existing configured values. -/
theorem c7_recovery_plan (job : Job) (e : String)
    (he : job.error = some e) (hsub : "timeout".data <:+: e.data)
    (t r : Int)
    (ht : pyInt (cfgGetD job.config "timeout" (.int 300)) = some t)
    (hr : pyInt (cfgGetD job.config "max_retries" (.int 7)) = some r) :
    buildRecoveryPlan job = some
      [switchServerAction job.config,
       { label := "Lower quality and FPS"
         changes := [("quality", .str "720"), ("fps", .str "30")] },
       { label := "Increase timeout and retries"
         changes := [("timeout", .int (max 450 t)), ("max_retries", .int (max 9 r))] }] ∧
    t ≤ max 450 t ∧ r ≤ max 9 r := by
  have hcat := categorize_timeout job e he hsub
  refine ⟨?_, le_max_right _ _, le_max_right _ _⟩
  simp only [buildRecoveryPlan, hcat, ht, hr]
  simp

/-- C7 witness: the concrete failed job with timeout 600 and max_retries 2
gets the three-action plan with overrides 600 and 9. -/
theorem c7_recovery_plan_witness :
    buildRecoveryPlan c7GoodJob = some
      [switchServerAction c7GoodJob.config,
       { label := "Lower quality and FPS"
         changes := [("quality", .str "720"), ("fps", .str "30")] },
       { label := "Increase timeout and retries"
         changes := [("timeout", .int (max 450 600)), ("max_retries", .int (max 9 2))] }] ∧
    (600 : Int) ≤ max 450 600 ∧ (2 : Int) ≤ max 9 2 :=
  c7_recovery_plan c7GoodJob "Connection timeout while downloading" rfl
    (by decide) 600 2 (by decide) (by decide)

/-- C9: the code at the failing input. A job whose configuration carries
`timeout = "max"` and whose plugin download fails with "Connection timeout
(read timed out)" reaches `status = "failed"` with an **empty** recovery
plan: `_categorize_failure` yields `network_or_rate_limit` and
`_build_recovery_plan` raises `ValueError` on `int("max")` inside the
`except` block, so `job.recovery_plan` keeps its initial `[]` (and no end
time or failure logs are recorded). -/
theorem c9_failed_job_empty_plan :
    (runDownloadJob [c9Plugin] genericFallback dlUnused "dl" c9Job).status = "failed" ∧
    (runDownloadJob [c9Plugin] genericFallback dlUnused "dl" c9Job).recoveryPlan = [] ∧
    (runDownloadJob [c9Plugin] genericFallback dlUnused "dl" c9Job).error =
      some "Connection timeout (read timed out)" := by
  decide

/-- Setting a key then looking it up. -/
theorem assocSet_lookup_self (c : Config) (k : String) (v : CVal) :
    (assocSet c k v).lookup k = some v := by
  induction c with
  | nil => simp [assocSet]
  | cons kv rest ih =>
    obtain ⟨k', v'⟩ := kv
    by_cases h : k' = k
    · simp [assocSet, h]
    · rw [assocSet, if_neg h, List.lookup_cons]
      simp [beq_false_of_ne (Ne.symm h), ih]

/-- Setting a key leaves other lookups unchanged. -/
theorem assocSet_lookup_other (c : Config) (k k' : String) (v : CVal) (h : k' ≠ k) :
    (assocSet c k v).lookup k' = c.lookup k' := by
  induction c with
  | nil => simp [assocSet, h]
  | cons kv rest ih =>
    obtain ⟨k₀, v₀⟩ := kv
    by_cases h₀ : k₀ = k
    · subst h₀
      rw [assocSet, if_pos rfl, List.lookup_cons, List.lookup_cons]
      simp [beq_false_of_ne h]
    · rw [assocSet, if_neg h₀, List.lookup_cons, List.lookup_cons]
      by_cases hk : k' = k₀
      · simp [hk]
      · simp [beq_false_of_ne hk, ih]

/-- A key outside a map's keys looks up to `none`. -/
theorem lookup_eq_none_of_not_mem (c : Config) (k : String)
    (h : k ∉ c.map Prod.fst) : c.lookup k = none := by
  induction c with
  | nil => rfl
  | cons kv rest ih =>
    obtain ⟨k₀, v₀⟩ := kv
    rw [List.map_cons, List.mem_cons] at h
    push_neg at h
    have h1 : k ≠ k₀ := by simpa using h.1
    rw [List.lookup_cons]
    simp [beq_false_of_ne h1, ih h.2]

/-- `dict.update` semantics at the lookup level: overrides win on keys they
carry, everything else falls through to the base mapping (for override
dictionaries, whose keys are unique). -/
theorem dictUpdate_lookup (changes : Config) (hnd : (changes.map Prod.fst).Nodup)
    (base : Config) (k : String) :
    (dictUpdate base changes).lookup k =
      match changes.lookup k with
      | some v => some v
      | none => base.lookup k := by
  induction changes generalizing base with
  | nil => rfl
  | cons kv rest ih =>
    obtain ⟨k₀, v₀⟩ := kv
    rw [List.map_cons, List.nodup_cons] at hnd
    have hnd1 : k₀ ∉ rest.map Prod.fst := by simpa using hnd.1
    have hstep : dictUpdate base ((k₀, v₀) :: rest) = dictUpdate (assocSet base k₀ v₀) rest := rfl
    rw [hstep, ih hnd.2, List.lookup_cons]
    by_cases hk : k = k₀
    · subst hk
      rw [lookup_eq_none_of_not_mem rest k hnd1]
      simp [assocSet_lookup_self]
    · simp only [beq_false_of_ne hk]
      cases hrl : rest.lookup k with
      | some v => rfl
      | none => simp [assocSet_lookup_other base k₀ k v₀ hk]

/-- Setting a job id then looking it up. -/
theorem jobsSet_lookup_self (m : List (Nat × Job)) (k : Nat) (v : Job) :
    (jobsSet m k v).lookup k = some v := by
  induction m with
  | nil => simp [jobsSet]
  | cons kv rest ih =>
    obtain ⟨k', v'⟩ := kv
    by_cases h : k' = k
    · simp [jobsSet, h]
    · rw [jobsSet, if_neg h, List.lookup_cons]
      simp [beq_false_of_ne (Ne.symm h), ih]

/-- Setting a job id leaves other ids' entries unchanged. -/
theorem jobsSet_lookup_other (m : List (Nat × Job)) (k k' : Nat) (v : Job) (h : k' ≠ k) :
    (jobsSet m k v).lookup k' = m.lookup k' := by
  induction m with
  | nil => simp [jobsSet, h]
  | cons kv rest ih =>
    obtain ⟨k₀, v₀⟩ := kv
    by_cases h₀ : k₀ = k
    · subst h₀
      rw [jobsSet, if_pos rfl, List.lookup_cons, List.lookup_cons]
      simp [beq_false_of_ne h]
    · rw [jobsSet, if_neg h₀, List.lookup_cons, List.lookup_cons]
      by_cases hk : k' = k₀
      · simp [hk]
      · simp [beq_false_of_ne hk, ih]



/-- Characterization of a successful retry: with a failed job, a non-empty
plan and a valid index, `retry_download_job` creates the retry job under the
fresh id and reports it. -/
theorem retryDownloadJob_eq (s : LiveState) (jobId : Nat) (raw : CVal) (oldJob : Job)
    (hfound : s.jobs.lookup jobId = some oldJob)
    (hfailed : oldJob.status = "failed")
    (hplan : oldJob.recoveryPlan ≠ [])
    (i : Int) (hraw : pyInt raw = some i)
    (hi0 : 0 ≤ i) (hilen : i < (oldJob.recoveryPlan.length : Int)) :
    retryDownloadJob s jobId raw =
      ({ jobCounter := s.jobCounter + 1
         jobs := jobsSet
           (jobsSet s.jobs (s.jobCounter + 1) (retryNewJob0 s oldJob i))
           (s.jobCounter + 1) (retryNewJob s oldJob i) },
       .ok (retryNewJob s oldJob i)) := by
  have hne : ¬ (oldJob.status ≠ "failed") := by rw [hfailed]; simp
  have hempty : oldJob.recoveryPlan.isEmpty = false := by
    cases hp : oldJob.recoveryPlan with
    | nil => exact absurd hp hplan
    | cons a l => rfl
  have hidx : ¬ (i < 0 ∨ (oldJob.recoveryPlan.length : Int) ≤ i) := by
    push_neg
    exact ⟨hi0, hilen⟩
  simp only [retryDownloadJob, hfound, if_neg hne, hraw, hempty, Bool.false_eq_true,
    if_false, if_neg hidx, createJob, retryNewJob, retryNewJob0, addLog]
  rfl

/-- C8: retrying a failed job with a valid recovery-plan index creates a
brand-new job: fresh id `counter + 1`, `parent_job_id` pointing at the
original job, retry counter incremented by one, and a configuration equal to
the original merged with the chosen action's overrides (overrides win on
conflicting keys); the original failed job's entry in the live map is left
untouched and the counter advances by exactly one. -/
theorem c8_retry_creates_new_job (s : LiveState) (jobId : Nat) (raw : CVal) (oldJob : Job)
    (hfound : s.jobs.lookup jobId = some oldJob)
    (hfailed : oldJob.status = "failed")
    (hplan : oldJob.recoveryPlan ≠ [])
    (i : Int) (hraw : pyInt raw = some i)
    (hi0 : 0 ≤ i) (hilen : i < (oldJob.recoveryPlan.length : Int))
    (hinv : jobId ≤ s.jobCounter)
    (hnd : (((oldJob.recoveryPlan.getD i.toNat ⟨"", []⟩).changes).map Prod.fst).Nodup) :
    ∃ newJob,
      (retryDownloadJob s jobId raw).2 = .ok newJob ∧
      newJob.jobId = s.jobCounter + 1 ∧
      newJob.parentJobId = some oldJob.jobId ∧
      newJob.retryCount = oldJob.retryCount + 1 ∧
      (∀ k, newJob.config.lookup k =
        match ((oldJob.recoveryPlan.getD i.toNat ⟨"", []⟩).changes).lookup k with
        | some v => some v
        | none => oldJob.config.lookup k) ∧
      (retryDownloadJob s jobId raw).1.jobs.lookup jobId = some oldJob ∧
      (retryDownloadJob s jobId raw).1.jobCounter = s.jobCounter + 1 := by
  have heq := retryDownloadJob_eq s jobId raw oldJob hfound hfailed hplan i hraw hi0 hilen
  have hneq : jobId ≠ s.jobCounter + 1 := Nat.ne_of_lt (Nat.lt_succ_of_le hinv)
  refine ⟨retryNewJob s oldJob i, ?_, rfl, rfl, rfl, ?_, ?_, ?_⟩
  · rw [heq]
  · intro k
    exact dictUpdate_lookup _ hnd oldJob.config k
  · rw [heq]
    show List.lookup jobId (jobsSet (jobsSet s.jobs (s.jobCounter + 1) (retryNewJob0 s oldJob i))
      (s.jobCounter + 1) (retryNewJob s oldJob i)) = some oldJob
    rw [jobsSet_lookup_other _ _ _ _ hneq, jobsSet_lookup_other _ _ _ _ hneq]
    exact hfound
  · rw [heq]

/-- C8 witness: retrying the concrete failed job `c8OldJob` with action
index 0 yields a job with id 5, parent 4, retry count 1 and the merged
configuration, while job 4 stays untouched. -/
theorem c8_retry_creates_new_job_witness :
    ∃ newJob,
      (retryDownloadJob c8State 4 (.int 0)).2 = .ok newJob ∧
      newJob.jobId = c8State.jobCounter + 1 ∧
      newJob.parentJobId = some c8OldJob.jobId ∧
      newJob.retryCount = c8OldJob.retryCount + 1 ∧
      (∀ k, newJob.config.lookup k =
        match ((c8OldJob.recoveryPlan.getD (Int.toNat 0) ⟨"", []⟩).changes).lookup k with
        | some v => some v
        | none => c8OldJob.config.lookup k) ∧
      (retryDownloadJob c8State 4 (.int 0)).1.jobs.lookup 4 = some c8OldJob ∧
      (retryDownloadJob c8State 4 (.int 0)).1.jobCounter = c8State.jobCounter + 1 :=
  c8_retry_creates_new_job c8State 4 (.int 0) c8OldJob (by decide) rfl (by decide)
    0 rfl (by decide) (by decide) (by decide) (by decide)

/-- C10: a retry request for a failed job whose `action_index` is not
integer-convertible, is negative, or is at least the recovery plan's length,
returns the corresponding error response and is atomic — the returned state
is exactly the input state, so no job is created, the counter is not
incremented, and the live map (including the original failed job) is
unchanged. -/
theorem c10_retry_invalid_index (s : LiveState) (jobId : Nat) (oldJob : Job)
    (hfound : s.jobs.lookup jobId = some oldJob)
    (hfailed : oldJob.status = "failed")
    (hplan : oldJob.recoveryPlan ≠ []) :
    (∀ raw, pyInt raw = none →
      retryDownloadJob s jobId raw = (s, .error "action_index must be an integer")) ∧
    (∀ raw i, pyInt raw = some i →
      (i < 0 ∨ (oldJob.recoveryPlan.length : Int) ≤ i) →
      retryDownloadJob s jobId raw = (s, .error "Invalid action index")) := by
  have hne : ¬ (oldJob.status ≠ "failed") := by rw [hfailed]; simp
  have hempty : oldJob.recoveryPlan.isEmpty = false := by
    cases hp : oldJob.recoveryPlan with
    | nil => exact absurd hp hplan
    | cons a l => rfl
  constructor
  · intro raw hraw
    simp only [retryDownloadJob, hfound, hraw, if_neg hne]
  · intro raw i hraw hbad
    simp only [retryDownloadJob, hfound, hraw, hempty, if_neg hne, if_pos hbad,
      Bool.false_eq_true, if_false]

/-- One loop iteration: a per-episode failure (no servers, no chosen server,
no video data, or a false download) leaves the counters and the file list
unchanged and only logs; a success increments the counter and appends the
file name. Status and config are never touched by the loop body. -/
theorem episodeStep_char (ctx : LoopCtx) (acc : Job × List String) (iep : Nat × Episode) :
    ((episodeStep ctx acc iep).1.completedEpisodes =
      acc.1.completedEpisodes + (if epSucceeds ctx iep.2 then 1 else 0)) ∧
    ((episodeStep ctx acc iep).1.downloadedFiles =
      acc.1.downloadedFiles ++
        (if epSucceeds ctx iep.2 then [basename (epFilepath ctx iep.2)] else [])) ∧
    ((episodeStep ctx acc iep).1.status = acc.1.status) ∧
    ((episodeStep ctx acc iep).1.config = acc.1.config) := by
  obtain ⟨job, paths⟩ := acc
  obtain ⟨idx0, ep⟩ := iep
  unfold episodeStep epSucceeds
  cases hs : ctx.dl.getVideoServers ep.token with
  | nil => simp [hs, addLog]
  | cons sv svs =>
    cases hc : ctx.dl.chooseServer (sv :: svs) ctx.preferType ctx.preferServer with
    | none => simp [hs, addLog, hc]
    | some server =>
      cases hv : ctx.dl.getVideoData server.serverId with
      | none => simp [hs, addLog, hc, hv]
      | some vd =>
        cases hdl : ctx.dl.downloadEpisode vd (epFilepath ctx ep) ep.id
            (ctx.cfg.lookup "quality") (ctx.cfg.lookup "fps") with
        | false => simp [hs, addLog, hc, hv, hdl]
        | true => simp [hs, addLog, hc, hv, hdl]

/-- The whole episode loop: completed episodes grow by the number of
succeeding selected episodes, the file list by their synthesized file names,
in list order; status and config pass through. -/
theorem downloadLoop_char (ctx : LoopCtx) (eps : List (Nat × Episode)) :
    ∀ acc : Job × List String,
      ((eps.foldl (episodeStep ctx) acc).1.completedEpisodes =
        acc.1.completedEpisodes + eps.countP (fun iep => epSucceeds ctx iep.2)) ∧
      ((eps.foldl (episodeStep ctx) acc).1.downloadedFiles =
        acc.1.downloadedFiles ++
          (eps.filter (fun iep => epSucceeds ctx iep.2)).map
            (fun iep => basename (epFilepath ctx iep.2))) ∧
      ((eps.foldl (episodeStep ctx) acc).1.status = acc.1.status) ∧
      ((eps.foldl (episodeStep ctx) acc).1.config = acc.1.config) := by
  induction eps with
  | nil => intro acc; simp
  | cons iep rest ih =>
    intro acc
    obtain ⟨h1, h2, h3, h4⟩ := episodeStep_char ctx acc iep
    obtain ⟨g1, g2, g3, g4⟩ := ih (episodeStep ctx acc iep)
    simp only [List.foldl_cons, List.countP_cons, List.filter_cons]
    refine ⟨?_, ?_, ?_, ?_⟩
    · rw [g1, h1]
      by_cases hp : epSucceeds ctx iep.2 = true
      · simp [hp]
        omega
      · simp [hp]
    · rw [g2, h2]
      by_cases hp : epSucceeds ctx iep.2 = true
      · simp [hp]
      · simp [hp]
    · rw [g3, h3]
    · rw [g4, h4]

/-- With merging disabled in the configuration, the merge block is a no-op. -/
theorem mergeStage_of_disabled (ctx : LoopCtx) (job : Job) (paths : List String)
    (f l : String)
    (h : cvalTruthy (cfgGetD job.config "merge_episodes" (.bool false)) = false) :
    mergeStage ctx job paths f l = job := by
  have hcon : ¬ (cvalTruthy (cfgGetD job.config "merge_episodes" (.bool false)) = true ∧
      1 < paths.length) := by
    rintro ⟨h1, _⟩
    rw [h] at h1
    exact Bool.false_ne_true h1
  rw [mergeStage, if_neg hcon]

/-- The completion epilogue only changes status, progress, current file, end
time and logs. -/
theorem completeStage_completed (j : Job) :
    (completeStage j).completedEpisodes = j.completedEpisodes := rfl

theorem completeStage_files (j : Job) :
    (completeStage j).downloadedFiles = j.downloadedFiles := rfl

theorem completeStage_status (j : Job) : (completeStage j).status = "completed" := rfl

/-- Counting over the enumerated list equals counting over the list. -/
theorem countP_enum_snd (p : Episode → Bool) (l : List Episode) :
    l.enum.countP (fun iep => p iep.2) = l.countP p := by
  conv_rhs => rw [← List.enum_map_snd l]
  rw [List.countP_map]
  rfl

/-- Filter-then-project over the enumerated list equals it over the list. -/
theorem filter_map_enum_snd (p : Episode → Bool) (g : Episode → String) (l : List Episode) :
    (l.enum.filter (fun iep => p iep.2)).map (fun iep => g iep.2) =
      (l.filter p).map g := by
  conv_rhs => rw [← List.enum_map_snd l]
  rw [List.filter_map, List.map_map]
  rfl

/-- Characterization of the generic path when info fetch, episode
enumeration and selection all succeed: the result is the completion epilogue
of the merge stage applied to the episode-loop fold from `startedJob`. -/
theorem genericStage_eq (dl : Downloader) (folder : String) (job : Job)
    (aid title : String) (hinfo : dl.getAnimeDetails job.animeUrl = some (aid, title))
    (e0 : Episode) (eps0 : List Episode) (heps : dl.getEpisodeList aid = e0 :: eps0)
    (first : Episode) (rest : List Episode)
    (hsel : selectEpisodes dl job.config (e0 :: eps0) = first :: rest) :
    genericStage dl folder job = .ok (completeStage (mergeStage (jobCtx dl folder job title)
      (((first :: rest).enum.foldl (episodeStep (jobCtx dl folder job title))
        (startedJob dl job title (e0 :: eps0).length (first :: rest).length, [])).1)
      (((first :: rest).enum.foldl (episodeStep (jobCtx dl folder job title))
        (startedJob dl job title (e0 :: eps0).length (first :: rest).length, [])).2)
      first.id (((first :: rest).getLast?).getD first).id)) := by
  simp only [genericStage, hinfo, heps, hsel, addLog, startedJob, jobCtx, jobSeason,
    List.append_assoc, List.singleton_append, List.cons_append, List.nil_append]

/-- C3: on the generic path with plugins disabled, whenever info fetch,
episode enumeration and selection succeed and merging is off, the job always
reaches status `completed` regardless of per-episode failures, with
`completed_episodes` grown by exactly the number of succeeding selected
episodes and `downloaded_files` extended by exactly their synthesized
filenames, in order — failing episodes are skipped, not fatal. -/
theorem c3_partial_failure (plugins : List Plugin) (fallback : Plugin) (dl : Downloader)
    (folder : String) (job : Job)
    (hplug : cvalTruthy (cfgGetD job.config "use_plugin" (.bool true)) = false)
    (aid title : String) (hinfo : dl.getAnimeDetails job.animeUrl = some (aid, title))
    (e0 : Episode) (eps0 : List Episode) (heps : dl.getEpisodeList aid = e0 :: eps0)
    (first : Episode) (rest : List Episode)
    (hsel : selectEpisodes dl job.config (e0 :: eps0) = first :: rest)
    (hmerge : cvalTruthy (cfgGetD job.config "merge_episodes" (.bool false)) = false) :
    (runDownloadJob plugins fallback dl folder job).status = "completed" ∧
    (runDownloadJob plugins fallback dl folder job).completedEpisodes =
      job.completedEpisodes +
        (first :: rest).countP (fun ep => epSucceeds (jobCtx dl folder job title) ep) ∧
    (runDownloadJob plugins fallback dl folder job).downloadedFiles =
      job.downloadedFiles ++
        ((first :: rest).filter (fun ep => epSucceeds (jobCtx dl folder job title) ep)).map
          (fun ep => basename (epFilepath (jobCtx dl folder job title) ep)) := by
  have hnotplug : ¬ (cvalTruthy (cfgGetD job.config "use_plugin" (.bool true)) = true ∧
      (getPluginForUrl plugins fallback job.animeUrl).name ≠ "AniKai.to") := by
    rintro ⟨h1, _⟩
    rw [hplug] at h1
    exact Bool.false_ne_true h1
  obtain ⟨hc, hf, _, hcfg⟩ := downloadLoop_char (jobCtx dl folder job title)
    ((first :: rest).enum)
    (startedJob dl job title (e0 :: eps0).length (first :: rest).length, [])
  have hmerge' := mergeStage_of_disabled (jobCtx dl folder job title)
    (((first :: rest).enum.foldl (episodeStep (jobCtx dl folder job title))
      (startedJob dl job title (e0 :: eps0).length (first :: rest).length, [])).1)
    (((first :: rest).enum.foldl (episodeStep (jobCtx dl folder job title))
      (startedJob dl job title (e0 :: eps0).length (first :: rest).length, [])).2)
    first.id (((first :: rest).getLast?).getD first).id
    (by rw [hcfg]; exact hmerge)
  have heq : runDownloadJob plugins fallback dl folder job =
      completeStage (mergeStage (jobCtx dl folder job title)
        (((first :: rest).enum.foldl (episodeStep (jobCtx dl folder job title))
          (startedJob dl job title (e0 :: eps0).length (first :: rest).length, [])).1)
        (((first :: rest).enum.foldl (episodeStep (jobCtx dl folder job title))
          (startedJob dl job title (e0 :: eps0).length (first :: rest).length, [])).2)
        first.id (((first :: rest).getLast?).getD first).id) := by
    simp only [runDownloadJob, runCore, if_neg hnotplug,
      genericStage_eq dl folder job aid title hinfo e0 eps0 heps first rest hsel]
  rw [heq, hmerge']
  refine ⟨completeStage_status _, ?_, ?_⟩
  · rw [completeStage_completed, hc,
      countP_enum_snd (fun ep => epSucceeds (jobCtx dl folder job title) ep) (first :: rest)]
    rfl
  · rw [completeStage_files, hf,
      filter_map_enum_snd (fun ep => epSucceeds (jobCtx dl folder job title) ep)
        (fun ep => basename (epFilepath (jobCtx dl folder job title) ep)) (first :: rest)]
    rfl

/-- C3 witness: episodes 2–4 of a ten-episode series are selected; episode 3
fails per-episode; the job completes with 2 completed episodes and exactly
the files for episodes 2 and 4. -/
theorem c3_partial_failure_witness :
    (runDownloadJob [] genericFallback dlC3 "dl" c3Job).status = "completed" ∧
    (runDownloadJob [] genericFallback dlC3 "dl" c3Job).completedEpisodes = 2 ∧
    (runDownloadJob [] genericFallback dlC3 "dl" c3Job).downloadedFiles =
      ["Show S1E2.mp4", "Show S1E4.mp4"] := by
  have h := c3_partial_failure [] genericFallback dlC3 "dl" c3Job rfl "aid1" "Show" rfl
    ⟨"1", "Ep 1", "t1"⟩
    [⟨"2", "Ep 2", "t2"⟩, ⟨"3", "Ep 3", "t3"⟩, ⟨"4", "Ep 4", "t4"⟩,
     ⟨"5", "Ep 5", "t5"⟩, ⟨"6", "Ep 6", "t6"⟩, ⟨"7", "Ep 7", "t7"⟩,
     ⟨"8", "Ep 8", "t8"⟩, ⟨"9", "Ep 9", "t9"⟩, ⟨"10", "Ep 10", "t10"⟩]
    rfl
    ⟨"2", "Ep 2", "t2"⟩ [⟨"3", "Ep 3", "t3"⟩, ⟨"4", "Ep 4", "t4"⟩]
    (by decide) rfl
  refine ⟨h.1, ?_, ?_⟩
  · rw [h.2.1]
    decide
  · rw [h.2.2]
    decide

/-- C10 witness: on the concrete failed job, `action_index = null` and
`action_index = 5` (plan length 1) both error out with the state unchanged. -/
theorem c10_retry_invalid_index_witness :
    (retryDownloadJob c8State 4 .null = (c8State, .error "action_index must be an integer")) ∧
    (retryDownloadJob c8State 4 (.int 5) = (c8State, .error "Invalid action index")) :=
  ⟨(c10_retry_invalid_index c8State 4 c8OldJob (by decide) rfl (by decide)).1 .null rfl,
   (c10_retry_invalid_index c8State 4 c8OldJob (by decide) rfl (by decide)).2 (.int 5) 5 rfl
     (Or.inr (by decide))⟩

end AniDL
